import Mathlib

/-
Verification development for the byenatOS personalization middleware.

The definitions below are a shallow embedding of the Python sources:
  - Kernel/Core/HiNATAProcessor.py   (record validation, normalization, scoring, batch ingestion)
  - Kernel/Core/StorageEngine.py     (tiered store, retrieval by id, multi-strategy search, relevance)
  - InterfaceAbstraction/APIs/HiNATAWriteAPI.py (governed write path: update, delete, bulk operations, backup)
  - Security/WritePermissionManager.py (risk assessment and write authorization)
  - Kernel/Core/PSPEngine.py         (profile synthesizer: intent-to-component matching)

Numeric scores are modeled as rationals; the Python floats in the sources
only ever carry small decimal constants and the claims under study do not
depend on binary floating point rounding.  External I/O (Redis, PostgreSQL,
the file system) is modeled as explicit state passed to and returned from
the operations.  Library calls on timestamps (datetime parsing and day
arithmetic) are modeled as function parameters, since the sources treat
them as opaque transformations of ISO-8601 strings.
-/

namespace ByenatOS

/-! ### Record model of HiNATAProcessor.py

HiNATAData mirrors the dataclass of the same name.  Records are modeled
with all schema fields present; the missing-required-field branch of the
validator concerns raw dictionaries and is not exercised by the claims. -/

structure HiNATAData where
  id : String
  timestamp : String
  source : String
  highlight : String
  note : String
  address : String
  tag : List String
  access : String
  raw_data : Option (List (String × String)) := none
  enhanced_tags : Option (List String) := none
  recommended_highlights : Option (List String) := none
  quality_score : Option ℚ := none
  attention_weight : Option ℚ := none
  psp_influence_weight : Option ℚ := none
deriving DecidableEq

/-- Whitespace as recognized by the Python str.strip default. -/
def is_py_space (c : Char) : Bool :=
  c = ' ' ∨ c = '\t' ∨ c = '\n' ∨ c = '\r' ∨ c = '\x0b' ∨ c = '\x0c'

/-- Models the Python library call str.strip: drop whitespace from both
ends, stated over the character list so that concrete runs reduce. -/
def py_strip (s : String) : String :=
  String.mk (((s.data.dropWhile is_py_space).reverse.dropWhile is_py_space).reverse)

/-- Models the Python library call str.lower (over the basic character
mapping). -/
def py_lower (s : String) : String := String.mk (s.data.map Char.toLower)

namespace HiNATAValidator

def ACCESS_LEVELS : List String := ["private", "public", "shared"]

/-- Embeds HiNATAValidator.validate.  The parameter parse_ok models
datetime.fromisoformat succeeding on the timestamp string. -/
def validate (parse_ok : String → Bool) (h : HiNATAData) : Bool × List String :=
  let e1 := if h.access ∈ ACCESS_LEVELS then [] else ["Invalid access level"]
  let e2 := if parse_ok h.timestamp then [] else ["Invalid timestamp format"]
  let e3 := if h.highlight.length > 10000 then ["Highlight text too long (max 10000 characters)"] else []
  let e4 := if h.note.length > 50000 then ["Note text too long (max 50000 characters)"] else []
  let errors := e1 ++ e2 ++ e3 ++ e4
  (errors.isEmpty, errors)

/-- Embeds HiNATAValidator.standardize.  The parameter iso_reformat models
the round trip datetime.fromisoformat followed by isoformat.  Tags are
filtered by non-emptiness of the stripped tag and then stripped and
lowercased, exactly as the list comprehension in the source; note that the
source performs no deduplication here. -/
def standardize (iso_reformat : String → String) (h : HiNATAData) : HiNATAData :=
  { h with
    timestamp := iso_reformat h.timestamp
    tag := (h.tag.filter (fun t => decide (py_strip t ≠ ""))).map (fun t => py_lower (py_strip t))
    raw_data := some (h.raw_data.getD []) }

end HiNATAValidator

namespace HiNATAProcessor

/-- Embeds HiNATAProcessor._calculate_psp_influence_weight: the influence
is 0.05 plus 0.95 times the 0.6/0.4 quality-attention blend.  The source
computes this directly, without an explicit clamp. -/
def calculate_psp_influence_weight (quality_score attention_weight : ℚ) : ℚ :=
  let base_influence := quality_score * 0.6 + attention_weight * 0.4
  let min_influence : ℚ := 0.05
  let max_influence : ℚ := 1.0
  min_influence + (max_influence - min_influence) * base_influence

inductive HiNATAProcessingStatus where
  | completed
  | failed
deriving DecidableEq

structure ProcessingResult where
  status : HiNATAProcessingStatus
  hinata_id : String
  error_message : Option String := none
deriving DecidableEq

/-- Environment of a single-record processing run.  The enhance field
models AIEnhancer.enhance_hinata, whose stages call external NLP and
embedding models and may raise; a raised exception is an error value.
The quality and attention fields model QualityScorer and
AttentionWeightCalculator, which are deterministic given the record and
the (externally stored) user history. -/
structure EnhanceEnv where
  enhance : HiNATAData → Except String HiNATAData
  quality : HiNATAData → ℚ
  attention : HiNATAData → ℚ

/-- Abstract storage reached by HiNATAProcessor._store_and_index, keyed by
record id. -/
abbrev ProcStore := List (String × HiNATAData)

def store_put (s : ProcStore) (h : HiNATAData) : ProcStore :=
  if (s.find? (fun p => p.1 = h.id)).isSome then
    s.map (fun p => if p.1 = h.id then (h.id, h) else p)
  else s ++ [(h.id, h)]

/-- Embeds HiNATAProcessor._process_single_hinata: validate, standardize,
enhance, score quality, score attention, compute influence, then store.
Every raised exception surfaces as an error value, exactly as the
try/except wrapper in process_hinata_batch observes it. -/
def process_single_hinata (env : EnhanceEnv) (parse_ok : String → Bool)
    (iso_reformat : String → String) (h : HiNATAData) (store : ProcStore) :
    Except String (HiNATAData × ProcStore) :=
  let v := HiNATAValidator.validate parse_ok h
  if ¬ v.1 then .error ("Validation failed: " ++ String.intercalate (", ") v.2)
  else
    match env.enhance (HiNATAValidator.standardize iso_reformat h) with
    | .error e => .error e
    | .ok enh =>
      let q := env.quality enh
      let a := env.attention enh
      let infl := calculate_psp_influence_weight q a
      let fin := { enh with
        quality_score := some q
        attention_weight := some a
        psp_influence_weight := some infl }
      .ok (fin, store_put store fin)

/-- Embeds HiNATAProcessor.process_hinata_batch: records are processed in
order; a record whose processing raises yields a FAILED result carrying the
message and the loop continues with the next record. -/
def process_hinata_batch (env : EnhanceEnv) (parse_ok : String → Bool)
    (iso_reformat : String → String) :
    List HiNATAData → ProcStore → List ProcessingResult × ProcStore
  | [], store => ([], store)
  | h :: rest, store =>
    match process_single_hinata env parse_ok iso_reformat h store with
    | .ok (fin, store2) =>
      let r := process_hinata_batch env parse_ok iso_reformat rest store2
      ({ status := .completed, hinata_id := fin.id } :: r.1, r.2)
    | .error e =>
      let r := process_hinata_batch env parse_ok iso_reformat rest store
      ({ status := .failed, hinata_id := h.id, error_message := some e } :: r.1, r.2)

end HiNATAProcessor

/-- Written from the wording of spec invariant (I5): clamp(lo, hi, x), the
value x forced into the closed interval from lo to hi.  Used only to
compare the code formula against the spec formula. -/
def clamp_spec (lo hi x : ℚ) : ℚ := max lo (min hi x)

/-! ### Row model of the warm tier (hinata_data table)

The table is created by WarmStorageManager._create_tables and extended
with the soft-delete columns by HiNATAWriteAPI._create_tables.  Rows are
modeled with the columns the claims touch; JSONB columns carrying lists of
strings are lists of strings. -/

structure HinataRow where
  id : String
  user_id : String
  timestamp : String
  source : String
  highlight : String
  note : String
  address : String
  tags : List String
  access_level : String
  quality_score : ℚ := 0
  attention_weight : ℚ := 0
  psp_influence_weight : ℚ := 0
  is_deleted : Bool := false
  deleted_at : Option String := none
deriving DecidableEq

/-- Row of the hinata_index table (WarmStorageManager._create_tables). -/
structure HinataIndexRow where
  hinata_id : String
  user_id : String
  timestamp : Int
  source : String
  psp_influence_weight : ℚ
  attention_weight : ℚ := 0
  quality_score : ℚ := 0
deriving DecidableEq

namespace StorageEngine

inductive StorageTier where
  | hot
  | warm
  | cold
deriving DecidableEq

structure RetrievalQuery where
  user_id : String
  query_type : String := ""
  query_text : Option String := none
  semantic_vector : Option (List ℚ) := none
  time_range : Option (Int × Int) := none
  limit : Nat := 10
  min_relevance_score : ℚ := 0.5
deriving DecidableEq

structure RetrievalResult where
  hinata_id : String
  relevance_score : ℚ
  storage_tier : StorageTier
  content_summary : String
deriving DecidableEq

/-- State of the tiered store.
cache maps a (user_id, hinata_id) pair to a row and the time it was
cached; hot_full models the Redis keys hinata:full:{id}; hot_timeline
models the per-user timeline sorted sets; warm and warm_index model the
two PostgreSQL tables; cold maps a (user_id, hinata_id) pair to a row,
reflecting that cold shards and their indexes are stored per user. -/
structure StorageState where
  cache : List ((String × String) × (HinataRow × ℚ)) := []
  hot_full : List (String × HinataRow) := []
  hot_timeline : List (String × List (String × Int)) := []
  warm : List HinataRow := []
  warm_index : List HinataIndexRow := []
  cold : List ((String × String) × HinataRow) := []
deriving DecidableEq

/-- Embeds HotStorageManager.get_hinata: a pure fetch of the key
hinata:full:{id}.  The user is not part of the key. -/
def hot_get_hinata (hot_full : List (String × HinataRow)) (hinata_id : String) :
    Option HinataRow :=
  (hot_full.find? (fun p => p.1 = hinata_id)).map (fun p => p.2)

/-- Embeds WarmStorageManager.get_hinata: SELECT by id alone; neither the
user nor the is_deleted flag is part of the predicate. -/
def warm_get_hinata (warm : List HinataRow) (hinata_id : String) : Option HinataRow :=
  warm.find? (fun r => r.id = hinata_id)

/-- Embeds ColdStorageManager.get_hinata: the index and data directories
are per user, so the lookup is keyed by the (user_id, hinata_id) pair. -/
def cold_get_hinata (cold : List ((String × String) × HinataRow))
    (hinata_id user_id : String) : Option HinataRow :=
  (cold.find? (fun p => p.1 = (user_id, hinata_id))).map (fun p => p.2)

/-- Cache probe of StorageEngine.retrieve_hinata: the key is
user_id:hinata_id and a hit is returned only while fresh. -/
def cache_lookup (cache : List ((String × String) × (HinataRow × ℚ)))
    (now cache_ttl : ℚ) (user_id hinata_id : String) : Option HinataRow :=
  match cache.find? (fun p => p.1 = (user_id, hinata_id)) with
  | some (_, (row, cached_at)) => if now - cached_at < cache_ttl then some row else none
  | none => none

/-- Embeds StorageEngine.retrieve_hinata: cache, then hot, then warm, then
cold, returning the first hit.  Only the cache key and the cold probe
involve the requesting user; metric updates and the cache write-back do
not affect the returned value and are not modeled. -/
def retrieve_hinata (s : StorageState) (now cache_ttl : ℚ)
    (hinata_id user_id : String) : Option HinataRow :=
  match cache_lookup s.cache now cache_ttl user_id hinata_id with
  | some row => some row
  | none =>
    match hot_get_hinata s.hot_full hinata_id with
    | some row => some row
    | none =>
      match warm_get_hinata s.warm hinata_id with
      | some row => some row
      | none => cold_get_hinata s.cold hinata_id user_id

/-- Embeds WarmStorageManager.query_by_criteria for the criteria used by
multi_strategy_search: rows of the user with at least the given influence,
ordered by influence descending then timestamp descending, limited. -/
def query_by_criteria (warm_index : List HinataIndexRow) (user_id : String)
    (min_influence_weight : Option ℚ) (limit : Option Nat) : List String :=
  let rows := warm_index.filter (fun (r : HinataIndexRow) =>
    decide (r.user_id = user_id) &&
    (match min_influence_weight with
     | some m => decide (m ≤ r.psp_influence_weight)
     | none => true))
  let sorted := rows.insertionSort (fun a b =>
    b.psp_influence_weight < a.psp_influence_weight ∨
    (b.psp_influence_weight = a.psp_influence_weight ∧ b.timestamp ≤ a.timestamp))
  (match limit with | some n => sorted.take n | none => sorted).map
    (fun (r : HinataIndexRow) => r.hinata_id)

/-- Embeds HotStorageManager.query_by_time_range over the per-user
timeline sorted set. -/
def query_by_time_range (hot_timeline : List (String × List (String × Int)))
    (user_id : String) (start_time end_time : Int) : List String :=
  match hot_timeline.find? (fun p => p.1 = user_id) with
  | none => []
  | some (_, entries) =>
    (entries.filter (fun e => decide (start_time ≤ e.2) && decide (e.2 ≤ end_time))).map (fun e => e.1)

/-- Embeds StorageEngine._calculate_recency_score.  The parameter days_ago
models the day difference between now and the parsed timestamp; stored
timestamps are valid, so the except branch of the source (malformed
timestamp, returning 0.5) is unreachable and not modeled. -/
def calculate_recency_score (days_ago : String → Int) (timestamp : String) : ℚ :=
  max 0.1 (1.0 * (0.95 : ℚ) ^ (days_ago timestamp))

/-- Embeds StorageEngine._calculate_relevance_score: the source adds the
constant 0.1 as the whole source_preference factor. -/
def calculate_relevance_score (days_ago : String → Int) (h : HinataRow) : ℚ :=
  h.psp_influence_weight * 0.3 +
  h.attention_weight * 0.25 +
  h.quality_score * 0.2 +
  calculate_recency_score days_ago h.timestamp * 0.15 +
  0.1

/-- Embeds StorageEngine._determine_storage_tier. -/
def determine_storage_tier (days_ago : String → Int) (h : HinataRow) : StorageTier :=
  if h.psp_influence_weight > 0.7 ∨ days_ago h.timestamp < 7 then .hot
  else if h.psp_influence_weight > 0.3 ∨ days_ago h.timestamp < 30 then .warm
  else .cold

/-- Embeds StorageEngine._rank_and_filter_results: fetch every candidate
through retrieve_hinata, drop misses and low-relevance rows, then sort by
relevance descending (a stable sort, as in Python). -/
def rank_and_filter_results (s : StorageState) (now cache_ttl : ℚ)
    (days_ago : String → Int) (hinata_ids : List String) (query : RetrievalQuery) :
    List RetrievalResult :=
  let results := hinata_ids.filterMap (fun hid =>
    match retrieve_hinata s now cache_ttl hid query.user_id with
    | none => none
    | some h =>
      let relevance := calculate_relevance_score days_ago h
      if relevance < query.min_relevance_score then none
      else some { hinata_id := hid
                  relevance_score := relevance
                  storage_tier := determine_storage_tier days_ago h
                  content_summary := h.highlight.take 100 })
  results.insertionSort (fun a b => b.relevance_score ≤ a.relevance_score)

/-- Embeds StorageEngine.multi_strategy_search under the default
configuration, in which enable_vector_index and enable_fulltext_index are
false, so strategies 1 and 2 contribute no candidates.  Strategy 3 queries
the warm index for high-influence rows of the user; strategy 4 queries the
hot timeline when a time range is given.  The candidate union is a Python
set, whose iteration order is unspecified; it is modeled as the
deduplicated concatenation. -/
def multi_strategy_search (s : StorageState) (now cache_ttl : ℚ)
    (days_ago : String → Int) (query : RetrievalQuery) : List RetrievalResult :=
  let high_weight_ids := query_by_criteria s.warm_index query.user_id (some 0.7) (some 15)
  let recent_ids :=
    match query.time_range with
    | some (t0, t1) => query_by_time_range s.hot_timeline query.user_id t0 t1
    | none => []
  let all_candidates := (high_weight_ids ++ recent_ids).dedup
  (rank_and_filter_results s now cache_ttl days_ago all_candidates query).take query.limit

end StorageEngine

/-- Written from the wording of the spec (section 4.5): the fusion formula
with an explicit per-user source preference factor whose default value is
0.5.  Used only to compare the code formula against the spec formula. -/
def spec_relevance_formula (influence attention quality recency source_pref : ℚ) : ℚ :=
  0.30 * influence + 0.25 * attention + 0.20 * quality + 0.15 * recency + 0.10 * source_pref

/-! ### Governed write path of HiNATAWriteAPI.py

The update handler moves a database row through a Python dict; the key
mismatch between the row columns (tags, access_level) and the keys the
storage writer reads back (tag, access) is part of the observed behavior,
so dicts are modeled explicitly as association lists over a small value
type. -/

namespace HiNATAWriteAPI

/-- Values stored in the Python dict that carries a record through the
update pipeline.  Tag patches carrying non-string scalars are outside the
model. -/
inductive DVal where
  | s : String → DVal
  | l : List String → DVal
  | b : Bool → DVal
  | q : ℚ → DVal
deriving DecidableEq

abbrev Dict := List (String × DVal)

def dget (d : Dict) (key : String) : Option DVal :=
  (d.find? (fun p => p.1 = key)).map (fun p => p.2)

/-- Python dict assignment: an existing key keeps its position, a new key
is appended. -/
def dset (d : Dict) (key : String) (v : DVal) : Dict :=
  if (d.find? (fun p => p.1 = key)).isSome then
    d.map (fun p => if p.1 = key then (key, v) else p)
  else d ++ [(key, v)]

def get_str (d : Dict) (key : String) : Option String :=
  match dget d key with
  | some (.s v) => some v
  | _ => none

def get_str_list (d : Dict) (key : String) : Option (List String) :=
  match dget d key with
  | some (.l v) => some v
  | _ => none

/-- Conversion of a fetched row into the dict that _handle_update_operation
copies, mirroring what SELECT * returns: the keys are the column names
(in particular tags and access_level, not tag and access). -/
def row_to_dict (r : HinataRow) : Dict :=
  [("id", .s r.id), ("user_id", .s r.user_id), ("timestamp", .s r.timestamp),
   ("source", .s r.source), ("highlight", .s r.highlight), ("note", .s r.note),
   ("address", .s r.address), ("tags", .l r.tags), ("access_level", .s r.access_level),
   ("quality_score", .q r.quality_score), ("attention_weight", .q r.attention_weight),
   ("psp_influence_weight", .q r.psp_influence_weight), ("is_deleted", .b r.is_deleted)]

/-- Embeds the patch loop of _handle_update_operation: each patch field is
written into the dict; a tag field under merge_tags is unioned (as a set)
with whatever the dict holds under the key tag, which for a fetched row is
nothing, since the fetched row carries its tags under the key tags. -/
def apply_updates (d : Dict) (updates : List (String × DVal)) (merge_tags : Bool) : Dict :=
  updates.foldl (fun acc fv =>
    if fv.1 = "tag" ∧ merge_tags then
      let existing_tags : List String :=
        match dget acc ("tag") with
        | some (.l ts) => ts
        | _ => []
      let new_tags : List String :=
        match fv.2 with
        | .l ts => ts
        | .s t => [t]
        | _ => []
      dset acc ("tag") (.l ((existing_tags ++ new_tags).dedup))
    else dset acc fv.1 fv.2) d

/-- Embeds _update_hinata_in_storage: the UPDATE statement writes exactly
the columns highlight, note, address, tags, access_level and timestamp of
the row whose id is the dict entry id, reading the dict keys highlight,
note, address, tag, access and timestamp.  A missing key raises and the
writer reports failure, modeled as none. -/
def update_hinata_in_storage (warm : List HinataRow) (d : Dict) :
    Option (List HinataRow) :=
  match get_str d ("id"), get_str d ("highlight"), get_str d ("note"),
        get_str d ("address"), get_str_list d ("tag"), get_str d ("access"),
        get_str d ("timestamp") with
  | some hid, some hl, some nt, some addr, some tg, some acc, some ts =>
    some (warm.map (fun r =>
      if r.id = hid then
        { r with highlight := hl, note := nt, address := addr,
                 tags := tg, access_level := acc, timestamp := ts }
      else r))
  | _, _, _, _, _, _, _ => none

structure HiNATAUpdateModel where
  id : String
  updates : List (String × DVal)
  merge_tags : Bool := true
  preserve_metadata : Bool := true
deriving DecidableEq

/-- Embeds WriteOperationValidator.validate_hinata_ownership: every id
must belong to a row of the user. -/
def validate_hinata_ownership (warm : List HinataRow) (user_id : String)
    (hinata_ids : List String) : Bool :=
  hinata_ids.all (fun hid => warm.any (fun r => decide (r.id = hid) && decide (r.user_id = user_id)))

/-- Embeds _get_hinata_by_id: SELECT by id with no user and no is_deleted
predicate. -/
def get_hinata_by_id (warm : List HinataRow) (hinata_id : String) : Option HinataRow :=
  warm.find? (fun r => r.id = hinata_id)

/-- Embeds _handle_update_operation: ownership check, fetch, patch loop,
unconditional timestamp overwrite with the current wall-clock time (the
parameter now), then the storage write.  The boolean in the result is the
success flag of the storage write. -/
def handle_update_operation (warm : List HinataRow) (user_id : String)
    (update_data : HiNATAUpdateModel) (now : String) :
    Except String (Bool × List HinataRow) :=
  if ¬ validate_hinata_ownership warm user_id [update_data.id] then
    .error ("No permission to modify HiNATA")
  else
    match get_hinata_by_id warm update_data.id with
    | none => .error ("HiNATA not found")
    | some existing_data =>
      let updated := apply_updates (row_to_dict existing_data) update_data.updates
        update_data.merge_tags
      let updated := dset updated ("timestamp") (.s now)
      match update_hinata_in_storage warm updated with
      | some warm2 => .ok (true, warm2)
      | none => .ok (false, warm)

/-- Embeds _soft_delete_hinata: UPDATE setting is_deleted and deleted_at
on the row with the given id; the row is not removed. -/
def soft_delete_hinata (warm : List HinataRow) (hinata_id : String) (now : String) :
    List HinataRow :=
  warm.map (fun r =>
    if r.id = hinata_id then { r with is_deleted := true, deleted_at := some now } else r)

/-- Embeds _hard_delete_hinata: DELETE of the row with the given id. -/
def hard_delete_hinata (warm : List HinataRow) (hinata_id : String) : List HinataRow :=
  warm.filter (fun r => ¬ r.id = hinata_id)

/-- Embeds _handle_delete_operation: ownership check, then one soft or
hard delete per id.  Database-level failures of single deletes (the
per-id except branch) are environment faults and are not modeled, so each
delete counts as successful. -/
def handle_delete_operation (warm : List HinataRow) (user_id : String)
    (hinata_ids : List String) (soft_delete : Bool) (now : String) :
    Except String (Nat × List HinataRow) :=
  if hinata_ids = [] then .error ("hinata_ids is required for delete operation")
  else if ¬ validate_hinata_ownership warm user_id hinata_ids then
    .error ("No permission to delete HiNATA")
  else
    .ok (hinata_ids.foldl (fun acc hid =>
      (acc.1 + 1,
       if soft_delete then soft_delete_hinata acc.2 hid now
       else hard_delete_hinata acc.2 hid)) (0, warm))

/-- Target filter of a bulk operation.  The source recognizes the keys
tag, source and date_range; unrecognized filter keys are outside the
model.  ISO-8601 UTC timestamps compare correctly as strings. -/
structure TargetFilter where
  tag : Option String := none
  source : Option String := none
  date_start : Option String := none
  date_end : Option String := none
deriving DecidableEq

/-- Python truthiness of the target_filter dict: an empty dict is falsy. -/
def TargetFilter.is_empty (f : TargetFilter) : Bool :=
  decide (f.tag = none) && decide (f.source = none) &&
  decide (f.date_start = none) && decide (f.date_end = none)

/-- Bulk operation payload; operation_tags models
operation_data.get with key tags. -/
structure BulkOperationModel where
  operation_type : String
  target_filter : TargetFilter
  operation_tags : List String := []
  dry_run : Bool := false
  batch_size : Nat := 100
deriving DecidableEq

/-- Embeds WriteOperationValidator._estimate_affected_count: COUNT of the
rows of the user matching the tag and source filters.  The estimate does
not filter by is_deleted and ignores date_range. -/
def estimate_affected_count (warm : List HinataRow) (target_filter : TargetFilter)
    (user_id : String) : Nat :=
  (warm.filter (fun r =>
    decide (r.user_id = user_id) &&
    (match target_filter.tag with | some t => decide (t ∈ r.tags) | none => true) &&
    (match target_filter.source with | some s => decide (r.source = s) | none => true))).length

/-- Embeds WriteOperationValidator.validate_bulk_operation_safety: an
empty filter, a batch size above 1000, or an estimated affected count
above 10000 each contribute an error. -/
def validate_bulk_operation_safety (warm : List HinataRow) (bulk_op : BulkOperationModel)
    (user_id : String) : Bool × List String :=
  let e1 := if bulk_op.target_filter.is_empty then
    ["Bulk operation must specify target filter"] else []
  let e2 := if bulk_op.batch_size > 1000 then ["Batch size too large (max 1000)"] else []
  let estimated_count := estimate_affected_count warm bulk_op.target_filter user_id
  let e3 := if estimated_count > 10000 then
    ["Operation would affect too many records"] else []
  let errors := e1 ++ e2 ++ e3
  (errors.isEmpty, errors)

/-- Embeds _find_hinatas_by_filter: rows of the user that are not
soft-deleted and match the tag, source and date-range filters. -/
def find_hinatas_by_filter (warm : List HinataRow) (target_filter : TargetFilter)
    (user_id : String) : List HinataRow :=
  warm.filter (fun r =>
    decide (r.user_id = user_id) && decide (r.is_deleted = false) &&
    (match target_filter.tag with | some t => decide (t ∈ r.tags) | none => true) &&
    (match target_filter.source with | some s => decide (r.source = s) | none => true) &&
    (match target_filter.date_start with | some d0 => decide (d0 ≤ r.timestamp) | none => true) &&
    (match target_filter.date_end with | some d1 => decide (r.timestamp ≤ d1) | none => true))

/-- Embeds _apply_bulk_operation on one target row: bulk_tag stores the
deduplicated union of the fetched tags and the new tags (with no
lowercasing or trimming); bulk_retag replaces the tags; any other type
reports failure. -/
def apply_bulk_operation (warm : List HinataRow) (hinata : HinataRow)
    (operation_tags : List String) (operation_type : String) : Bool × List HinataRow :=
  if operation_type = "bulk_tag" then
    let combined_tags := (hinata.tags ++ operation_tags).dedup
    (true, warm.map (fun r => if r.id = hinata.id then { r with tags := combined_tags } else r))
  else if operation_type = "bulk_retag" then
    (true, warm.map (fun r => if r.id = hinata.id then { r with tags := operation_tags } else r))
  else (false, warm)

structure BulkOutcome where
  dry_run : Bool
  estimated_count : Nat := 0
  successful_count : Nat := 0
  total_processed : Nat := 0
deriving DecidableEq

/-- Embeds _handle_bulk_operation: safety validation, target selection,
dry-run short circuit, then one _apply_bulk_operation call per target.
The batching of targets into chunks of batch_size only partitions the same
sequential per-record loop and is modeled as a single fold. -/
def handle_bulk_operation (warm : List HinataRow) (bulk_op : Option BulkOperationModel)
    (user_id : String) : Except String (BulkOutcome × List HinataRow) :=
  match bulk_op with
  | none => .error ("bulk_operation is required for bulk operations")
  | some b =>
    let safety := validate_bulk_operation_safety warm b user_id
    if ¬ safety.1 then .error ("Bulk operation safety check failed")
    else
      let target_hinatas := find_hinatas_by_filter warm b.target_filter user_id
      if b.dry_run then .ok ({ dry_run := true, estimated_count := target_hinatas.length }, warm)
      else
        let final := target_hinatas.foldl (fun acc h =>
          let applied := apply_bulk_operation acc.2 h b.operation_tags b.operation_type
          (acc.1 + (if applied.1 then 1 else 0), applied.2)) (0, warm)
        .ok ({ dry_run := false, successful_count := final.1,
               total_processed := target_hinatas.length }, final.2)

/-- Write request.  The fields hinata_ids and soft_delete flatten the
processing_options dict entries read by _handle_delete_operation. -/
structure HiNATAWriteRequestModel where
  user_id : String
  operation_type : String
  intent_description : String := ""
  update_data : Option HiNATAUpdateModel := none
  bulk_operation : Option BulkOperationModel := none
  hinata_ids : List String := []
  soft_delete : Bool := true
  auto_backup : Bool := true
deriving DecidableEq

structure HiNATAWriteResponse where
  status : String
  operation_id : String
  affected_count : Nat
  errors : List String := []
deriving DecidableEq

/-- State touched by the write processor: the hinata_data table and the
Redis backup keys (backup key to snapshot). -/
structure WriteState where
  warm : List HinataRow := []
  backups : List (String × List HinataRow) := []
deriving DecidableEq

/-- Embeds _create_backup: a snapshot of all non-deleted rows of the user
is stored under backup:user_id:operation_id. -/
def create_backup (st : WriteState) (user_id operation_id : String) : WriteState :=
  { st with backups := st.backups ++
      [("backup:" ++ user_id ++ ":" ++ operation_id,
        st.warm.filter (fun r => decide (r.user_id = user_id) && decide (r.is_deleted = false)))] }

def known_operation_types : List String :=
  ["create", "update", "delete", "batch_update", "bulk_tag", "bulk_retag", "merge", "split"]

/-- Embeds HiNATAWriteProcessor.process_write_request.  An unknown
operation type fails at the enum constructor before anything else; the
permission check follows; then, when auto_backup is set (its default), the
backup snapshot is created; only then does the dispatched handler run, so
a handler that raises (every raise is caught and turned into an error
response) leaves the already-created backup behind.  The create branch
delegates to HiNATAProcessor.process_hinata_batch, modeled separately in
its own namespace, and the merge and split types reach the unsupported
branch of the dispatcher, so both are folded into the final error case
here. -/
def process_write_request (has_permission : Bool) (request : HiNATAWriteRequestModel)
    (operation_id : String) (now : String) (st : WriteState) :
    HiNATAWriteResponse × WriteState :=
  if request.operation_type ∉ known_operation_types then
    ({ status := "error", operation_id := operation_id, affected_count := 0,
       errors := ["Invalid operation type"] }, st)
  else if ¬ has_permission then
    ({ status := "error", operation_id := operation_id, affected_count := 0,
       errors := ["Insufficient permissions for this operation"] }, st)
  else
    let st1 := if request.auto_backup then create_backup st request.user_id operation_id else st
    if request.operation_type = "update" then
      match request.update_data with
      | none =>
        ({ status := "error", operation_id := operation_id, affected_count := 0,
           errors := ["update_data is required for update operation"] }, st1)
      | some u =>
        match handle_update_operation st1.warm request.user_id u now with
        | .error e =>
          ({ status := "error", operation_id := operation_id, affected_count := 0,
             errors := [e] }, st1)
        | .ok (succ, warm2) =>
          let affected := if succ then 1 else 0
          ({ status := if affected > 0 then "success" else "failed",
             operation_id := operation_id, affected_count := affected },
           { st1 with warm := warm2 })
    else if request.operation_type = "delete" then
      match handle_delete_operation st1.warm request.user_id request.hinata_ids
        request.soft_delete now with
      | .error e =>
        ({ status := "error", operation_id := operation_id, affected_count := 0,
           errors := [e] }, st1)
      | .ok (deleted_count, warm2) =>
        ({ status := if deleted_count > 0 then "success" else "failed",
           operation_id := operation_id, affected_count := deleted_count },
         { st1 with warm := warm2 })
    else if request.operation_type = "batch_update" ∨ request.operation_type = "bulk_tag" ∨
        request.operation_type = "bulk_retag" then
      match handle_bulk_operation st1.warm request.bulk_operation request.user_id with
      | .error e =>
        ({ status := "error", operation_id := operation_id, affected_count := 0,
           errors := [e] }, st1)
      | .ok (outcome, warm2) =>
        ({ status := if outcome.successful_count > 0 then "success" else "failed",
           operation_id := operation_id, affected_count := outcome.successful_count },
         { st1 with warm := warm2 })
    else
      ({ status := "error", operation_id := operation_id, affected_count := 0,
         errors := ["Unsupported operation type"] }, st1)

end HiNATAWriteAPI

/-! ### Risk assessment and authorization of WritePermissionManager.py -/

namespace WritePermissionManager

inductive PermissionLevel where
  | none_level
  | read_only
  | write_limited
  | write_full
  | admin
deriving DecidableEq

inductive OperationRisk where
  | low
  | medium
  | high
  | critical
deriving DecidableEq

/-- Per-user permission profile.  Python uses None or an empty collection
interchangeably as a falsy value for allowed_sources and
forbidden_operations, so both are modeled as possibly-empty lists.
Validity bounds are compared as instants, modeled as integers. -/
structure UserPermissionProfile where
  user_id : String
  permission_level : PermissionLevel
  allowed_operations : List String
  daily_operation_limit : Nat
  batch_size_limit : Nat
  require_2fa : Bool
  valid_from : Int
  valid_until : Option Int := none
  allowed_sources : List String := []
  forbidden_operations : List String := []
deriving DecidableEq

/-- Operation payload fields read by the risk assessor, with the same
defaults Python supplies through dict.get. -/
structure OperationData where
  estimated_affected_count : Nat := 1
  soft_delete : Bool := true
  target_sources : List String := []
deriving DecidableEq

def operation_base_risk (operation_type : String) : ℚ :=
  if operation_type = "create" then 0.1
  else if operation_type = "update" then 0.3
  else if operation_type = "delete" then 0.8
  else if operation_type = "bulk_tag" then 0.4
  else if operation_type = "bulk_retag" then 0.5
  else if operation_type = "batch_update" then 0.6
  else if operation_type = "merge" then 0.7
  else if operation_type = "split" then 0.6
  else 0.5

/-- Embeds RiskAssessment.assess_operation_risk: the running score starts
at the per-type base risk and accumulates batch-size, hard-delete,
off-hours, limited-user-bulk and unauthorized-source surcharges, each with
its flag; the level thresholds are 1.0, 0.7 and 0.4 and the reported score
is capped at 1.0.  current_hour models datetime.now hour. -/
def assess_operation_risk (operation_type : String) (operation_data : OperationData)
    (user_profile : UserPermissionProfile) (current_hour : Nat) :
    OperationRisk × ℚ × List String :=
  let risk_score : ℚ := operation_base_risk operation_type
  let affected_count := operation_data.estimated_affected_count
  let sf1 :=
    if affected_count > 1000 then (risk_score + 0.8, ["large_batch_operation"])
    else if affected_count > 100 then (risk_score + 0.5, ["medium_batch_operation"])
    else if affected_count > 10 then (risk_score + 0.2, ["small_batch_operation"])
    else (risk_score, ([] : List String))
  let sf2 :=
    if operation_type = "delete" then
      let sfa :=
        if ¬ operation_data.soft_delete then (sf1.1 + 0.3, sf1.2 ++ ["hard_delete"])
        else sf1
      if affected_count > 50 then (sfa.1 + 0.4, sfa.2 ++ ["bulk_delete"]) else sfa
    else sf1
  let sf3 :=
    if current_hour < 6 ∨ current_hour > 22 then
      (sf2.1 + 0.1, sf2.2 ++ ["off_hours_operation"])
    else sf2
  let sf4 :=
    if user_profile.permission_level = .write_limited ∧
        (operation_type = "batch_update" ∨ operation_type = "bulk_tag" ∨
         operation_type = "bulk_retag") then
      (sf3.1 + 0.3, sf3.2 ++ ["limited_user_bulk_operation"])
    else sf3
  let unauthorized_sources :=
    operation_data.target_sources.filter (fun s => s ∉ user_profile.allowed_sources)
  let sf5 :=
    if operation_data.target_sources ≠ [] ∧ user_profile.allowed_sources ≠ [] ∧
        unauthorized_sources ≠ [] then
      (sf4.1 + 0.5, sf4.2 ++ ["unauthorized_source_access"])
    else sf4
  let risk_level :=
    if sf5.1 ≥ 1.0 then OperationRisk.critical
    else if sf5.1 ≥ 0.7 then OperationRisk.high
    else if sf5.1 ≥ 0.4 then OperationRisk.medium
    else OperationRisk.low
  (risk_level, min sf5.1 1.0, sf5.2)

/-- Embeds PermissionValidator.validate_write_permission, checks 2 to 10
in source order.  The profile itself, the current instant and hour, the
daily operation count and the session 2FA verification result (what
verify_2fa_for_operation returns) are parameters, since they come from the
database, the clock and Redis.  Note that check 10 demands a verified
session only when the profile itself sets require_2fa. -/
def validate_write_permission (user_profile : UserPermissionProfile)
    (operation_type : String) (operation_data : OperationData)
    (twofa_verified : Bool) (current_time : Int) (current_hour : Nat)
    (daily_count : Nat) : Bool × String × List String :=
  if user_profile.permission_level = .none_level then (false, "No write permissions", [])
  else if user_profile.permission_level = .read_only then (false, "Read-only access", [])
  else if operation_type ∉ user_profile.allowed_operations then
    (false, "Operation not permitted", [])
  else if user_profile.forbidden_operations ≠ [] ∧
      operation_type ∈ user_profile.forbidden_operations then
    (false, "Operation is forbidden", [])
  else if current_time < user_profile.valid_from then
    (false, "Permissions not yet active", [])
  else if (match user_profile.valid_until with
           | some vu => decide (vu < current_time)
           | none => false) then
    (false, "Permissions expired", [])
  else if user_profile.daily_operation_limit ≤ daily_count then
    (false, "Daily operation limit exceeded", [])
  else if user_profile.batch_size_limit < operation_data.estimated_affected_count then
    (false, "Batch size limit exceeded", [])
  else
    let assessed := assess_operation_risk operation_type operation_data user_profile
      current_hour
    let risk_level := assessed.1
    let risk_flags := assessed.2.2
    if risk_level = .critical ∧ user_profile.permission_level ≠ .admin then
      (false, "Admin permissions required for critical operations", risk_flags)
    else if risk_level = .high ∧
        ¬ (user_profile.permission_level = .write_full ∨
           user_profile.permission_level = .admin) then
      (false, "Full write permissions required for high-risk operations", risk_flags)
    else if user_profile.require_2fa ∧ (risk_level = .high ∨ risk_level = .critical) ∧
        ¬ twofa_verified then
      (false, "Two-factor authentication required", risk_flags)
    else (true, "Permission granted", risk_flags)

end WritePermissionManager

/-! ### Profile synthesizer matcher of PSPEngine.py

Cosine similarity genuinely lives in the reals (it divides by vector
norms), so the matcher is stated over the reals; embeddings themselves are
rational vectors. -/

namespace PSPEngine

inductive PSPComponentType where
  | core_interest
  | current_goal
  | learning_preference
  | communication_style
  | work_context
  | personal_value
deriving DecidableEq

inductive PSPUpdateAction where
  | create
  | update
  | strengthen
  | weaken
  | merge
  | split
  | archive
deriving DecidableEq

structure PSPComponent where
  id : String
  component_type : PSPComponentType
  description : String := ""
  embedding : List ℚ := []
  confidence : ℚ := 0
  total_attention_weight : ℚ := 0
  normalized_weight : ℚ := 0
  priority : String := "medium"
  activation_threshold : ℚ := 0.5
deriving DecidableEq

structure UserIntent where
  id : String
  hinata_id : String
  description : String := ""
  embedding : List ℚ := []
  confidence : ℚ := 0
  attention_weight : ℚ := 0
  intent_type : PSPComponentType
  source_app : String := ""
deriving DecidableEq

/-- The four memory layers of a PSP.  Python stores each layer as a dict
from component id to component, iterated in insertion order; each layer is
modeled as a list of components in that order. -/
structure PSPContext where
  user_id : String
  core_memory : List PSPComponent := []
  working_memory : List PSPComponent := []
  learning_memory : List PSPComponent := []
  context_memory : List PSPComponent := []
deriving DecidableEq

def dot_product : List ℚ → List ℚ → ℚ
  | x :: xs, y :: ys => x * y + dot_product xs ys
  | _, _ => 0

def norm_sq (v : List ℚ) : ℚ := dot_product v v

/-- Embeds PSPMatcher._calculate_similarity: zero for an empty vector,
otherwise the cosine of the two vectors clipped below at zero. -/
noncomputable def calculate_similarity (embedding1 embedding2 : List ℚ) : ℝ :=
  if embedding1 = [] ∨ embedding2 = [] then 0
  else max 0 (((dot_product embedding1 embedding2 : ℚ) : ℝ) /
    (Real.sqrt ((norm_sq embedding1 : ℚ) : ℝ) * Real.sqrt ((norm_sq embedding2 : ℚ) : ℝ)))

/-- Embeds PSPMatcher._get_target_memory: intents are matched against a
memory layer, which groups two component kinds for the core and working
layers. -/
def get_target_memory (intent_type : PSPComponentType) (psp : PSPContext) :
    List PSPComponent :=
  if intent_type = .core_interest ∨ intent_type = .personal_value then psp.core_memory
  else if intent_type = .current_goal ∨ intent_type = .work_context then psp.working_memory
  else if intent_type = .learning_preference then psp.learning_memory
  else psp.context_memory

/-- Running best similarity of the component search loop: 0.0 while no
component has been selected, mirroring the best_similarity variable. -/
def best_value : Option (PSPComponent × ℝ) → ℝ
  | none => 0
  | some p => p.2

open Classical in
/-- One iteration of the search loop of _find_best_component_match:
components without an embedding are skipped and a component replaces the
running best exactly when its similarity beats both the running best value
(0 when none) and the threshold. -/
noncomputable def find_best_step (intent : UserIntent) (similarity_threshold : ℝ)
    (acc : Option (PSPComponent × ℝ)) (component : PSPComponent) :
    Option (PSPComponent × ℝ) :=
  if component.embedding = [] then acc
  else
    let similarity := calculate_similarity intent.embedding component.embedding
    if similarity > best_value acc ∧ similarity > similarity_threshold then
      some (component, similarity)
    else acc

/-- Embeds PSPMatcher._find_best_component_match with the default
similarity threshold passed explicitly (0.7 at the call sites). -/
noncomputable def find_best_component_match (intent : UserIntent) (psp : PSPContext)
    (similarity_threshold : ℝ) : Option (PSPComponent × ℝ) :=
  if intent.embedding = [] then none
  else (get_target_memory intent.intent_type psp).foldl
    (find_best_step intent similarity_threshold) none

open Classical in
/-- Embeds PSPMatcher._determine_update_action. -/
noncomputable def determine_update_action (similarity : ℝ) : PSPUpdateAction :=
  if similarity > 0.9 then .strengthen
  else if similarity > 0.8 then .update
  else if similarity > 0.7 then .merge
  else .create

/-- Embeds PSPMatcher._calculate_merge_strength. -/
def calculate_merge_strength (attention_weight : ℚ) : ℚ :=
  if attention_weight > 0.8 then 1.0
  else if attention_weight > 0.6 then 0.8
  else if attention_weight > 0.4 then 0.6
  else 0.3

structure MatchInfo where
  intent : UserIntent
  psp_component : Option PSPComponent
  similarity : ℝ
  action : PSPUpdateAction
  merge_strength : ℚ

/-- Embeds the per-intent body of PSPMatcher.match_intents_with_psp. -/
noncomputable def match_intent_with_psp (intent : UserIntent) (psp : PSPContext)
    (similarity_threshold : ℝ) : MatchInfo :=
  match find_best_component_match intent psp similarity_threshold with
  | some best =>
    { intent := intent, psp_component := some best.1, similarity := best.2,
      action := determine_update_action best.2,
      merge_strength := calculate_merge_strength intent.attention_weight }
  | none =>
    { intent := intent, psp_component := none, similarity := 0,
      action := .create, merge_strength := 1.0 }

end PSPEngine

/-! ### Concrete fixtures used by the counterexamples and witnesses -/

/-- Profile of an administrator whose profile does not demand 2FA. -/
def admin_profile : WritePermissionManager.UserPermissionProfile :=
  { user_id := "u1", permission_level := .admin, allowed_operations := ["delete"],
    daily_operation_limit := 100, batch_size_limit := 10, require_2fa := false,
    valid_from := 0 }

/-- A single-record hard delete payload. -/
def hard_delete_data : WritePermissionManager.OperationData :=
  { soft_delete := false }

/-- A record submitted with a duplicated tag. -/
def sample_dup_tag_record : HiNATAData :=
  { id := "h1", timestamp := "2024-12-01T10:30:00Z", source := "browser_extension",
    highlight := "Machine learning models require careful validation",
    note := "cross validation notes", address := "https://example.com/ml-guide",
    tag := ["ml", "ml"], access := "private" }

/-- A stored row carrying an all-lowercase tag, target of a bulk tag add. -/
def bulk_row : HinataRow :=
  { id := "hb", user_id := "u1", timestamp := "2024-01-01T00:00:00+00:00", source := "s",
    highlight := "", note := "", address := "", tags := ["python"],
    access_level := "private" }

/-- Environment in which the enrichment stage fails on every record. -/
def failing_enhance_env : HiNATAProcessor.EnhanceEnv :=
  { enhance := fun _ => .error ("enhancement stage failed"),
    quality := fun _ => 0.5, attention := fun _ => 0.5 }

/-- A well-formed record for the ingestion counterexample. -/
def sample_valid_record : HiNATAData :=
  { id := "h2", timestamp := "2024-12-01T10:30:00Z", source := "browser_extension",
    highlight := "hello", note := "world", address := "https://example.com",
    tag := ["ml"], access := "private" }

/-- A stored row with all score factors zero. -/
def c8_row : HinataRow :=
  { id := "h8", user_id := "u1", timestamp := "2024-01-01T00:00:00+00:00", source := "s",
    highlight := "", note := "", address := "", tags := [], access_level := "private" }

/-- A row owned by alice, resident in the hot tier. -/
def alice_row : HinataRow :=
  { id := "h1", user_id := "alice", timestamp := "2024-01-01T00:00:00+00:00", source := "s",
    highlight := "hello", note := "", address := "a", tags := [],
    access_level := "private" }

def hot_only_state : StorageEngine.StorageState :=
  { hot_full := [("h1", alice_row)] }

/-- A high-influence row of user u1, later soft-deleted. -/
def c2_base_row : HinataRow :=
  { id := "h9", user_id := "u1", timestamp := "2024-01-01T00:00:00+00:00", source := "s",
    highlight := "hello", note := "", address := "a", tags := [],
    access_level := "private", quality_score := 1, attention_weight := 1,
    psp_influence_weight := 0.8 }

def c2_deleted_warm : List HinataRow :=
  HiNATAWriteAPI.soft_delete_hinata [c2_base_row] ("h9") ("2024-02-02T00:00:00+00:00")

def c2_state : StorageEngine.StorageState :=
  { warm := c2_deleted_warm,
    warm_index := [{ hinata_id := "h9", user_id := "u1", timestamp := 0, source := "s",
                     psp_influence_weight := 0.8 }] }

def c2_query : StorageEngine.RetrievalQuery :=
  { user_id := "u1", min_relevance_score := 0 }

/-- A stored row matched by the oversized bulk request below. -/
def c4_row : HinataRow :=
  { id := "hc", user_id := "u1", timestamp := "2024-01-01T00:00:00+00:00", source := "s",
    highlight := "", note := "", address := "", tags := ["python"],
    access_level := "private" }

def c4_bulk : HiNATAWriteAPI.BulkOperationModel :=
  { operation_type := "bulk_tag", target_filter := { tag := some ("python") },
    operation_tags := ["x"], batch_size := 1001 }

def c4_request : HiNATAWriteAPI.HiNATAWriteRequestModel :=
  { user_id := "u1", operation_type := "bulk_tag", bulk_operation := some c4_bulk }

def c4_state : HiNATAWriteAPI.WriteState :=
  { warm := [c4_row] }

/-- A stored row of user u1 targeted by a single-record update. -/
def u1_row : HinataRow :=
  { id := "h1", user_id := "u1", timestamp := "T0", source := "src", highlight := "H",
    note := "N", address := "A", tags := ["old"], access_level := "private" }

def c10_update : HiNATAWriteAPI.HiNATAUpdateModel :=
  { id := "h1", updates := [("tag", .l ["x"]), ("access", .s ("private"))] }

/-- The table after the update above: tags replaced by the patch tags (the
merge reads the dict key tag, which the fetched row does not carry) and
the timestamp overwritten with the update wall-clock time. -/
def c10_expected_warm : List HinataRow :=
  [{ u1_row with tags := ["x"], timestamp := "T2" }]

/-- A personal_value component living in the core memory layer. -/
def pv_component : PSPEngine.PSPComponent :=
  { id := "c1", component_type := .personal_value, embedding := [1] }

/-- A core_interest intent whose embedding coincides with the component
above. -/
def ci_intent : PSPEngine.UserIntent :=
  { id := "i1", hinata_id := "h1", embedding := [1], intent_type := .core_interest }

def c6_psp : PSPEngine.PSPContext :=
  { user_id := "u1", core_memory := [pv_component] }

/-- The row of the soft-delete scenario after the delete has been
applied. -/
def c2_deleted_row : HinataRow :=
  { c2_base_row with
    is_deleted := true
    deleted_at := some ("2024-02-02T00:00:00+00:00") }

/-! ## Claim theorems -/

/-- C9: for every processed record with quality in the unit interval and
attention in the unit interval, the assigned influence equals
clamp(0.05, 1.0, 0.05 + 0.95 times (0.6 times quality + 0.4 times
attention)); consequently the influence always lies between 0.05 and
1.0. -/
theorem c9_influence_equals_spec_clamp (q a : ℚ)
    (hq0 : 0 ≤ q) (hq1 : q ≤ 1) (ha0 : 0 ≤ a) (ha1 : a ≤ 1) :
    HiNATAProcessor.calculate_psp_influence_weight q a =
      clamp_spec 0.05 1.0 (0.05 + 0.95 * (0.6 * q + 0.4 * a)) ∧
    0.05 ≤ HiNATAProcessor.calculate_psp_influence_weight q a ∧
    HiNATAProcessor.calculate_psp_influence_weight q a ≤ 1.0 := by
  have hdef : HiNATAProcessor.calculate_psp_influence_weight q a =
      0.05 + 0.95 * (0.6 * q + 0.4 * a) := by
    unfold HiNATAProcessor.calculate_psp_influence_weight
    ring
  unfold clamp_spec
  rw [hdef, min_eq_right (by nlinarith), max_eq_right (by nlinarith)]
  refine ⟨rfl, by nlinarith, by nlinarith⟩

/-- Witness for C9 at quality 0.5 and attention 0.5. -/
theorem c9_witness :
    HiNATAProcessor.calculate_psp_influence_weight 0.5 0.5 =
      clamp_spec 0.05 1.0 (0.05 + 0.95 * (0.6 * 0.5 + 0.4 * 0.5)) ∧
    0.05 ≤ HiNATAProcessor.calculate_psp_influence_weight 0.5 0.5 ∧
    HiNATAProcessor.calculate_psp_influence_weight 0.5 0.5 ≤ 1.0 :=
  c9_influence_equals_spec_clamp 0.5 0.5 (by norm_num) (by norm_num) (by norm_num)
    (by norm_num)

/-- C8 counterexample: at a stored row whose influence, attention and
quality are all zero and whose age is zero days, the code computes
relevance 0.25 while the fusion formula of the claim, with the default
source preference 0.5, gives 0.20.  The source adds the constant 0.1 as
the whole source preference factor; there is no per-user lookup. -/
theorem c8_counterexample :
    StorageEngine.calculate_relevance_score (fun _ => 0) c8_row ≠
      spec_relevance_formula c8_row.psp_influence_weight c8_row.attention_weight
        c8_row.quality_score
        (StorageEngine.calculate_recency_score (fun _ => 0) c8_row.timestamp) 0.5 := by
  simp only [StorageEngine.calculate_relevance_score, spec_relevance_formula,
    StorageEngine.calculate_recency_score, c8_row]
  norm_num

/-- C8 amended: the fused relevance equals 0.30 influence + 0.25 attention
+ 0.20 quality + 0.15 recency + 0.10 source_pref with the source
preference factor identically 1 (the code adds the flat constant 0.1, not
0.10 times a per-user lookup with default 0.5); recency is
max(0.1, 0.95 to the age in days) as claimed. -/
theorem c8_amended_constant_source_preference (days_ago : String → Int) (h : HinataRow) :
    StorageEngine.calculate_relevance_score days_ago h =
      spec_relevance_formula h.psp_influence_weight h.attention_weight h.quality_score
        (StorageEngine.calculate_recency_score days_ago h.timestamp) 1 := by
  unfold StorageEngine.calculate_relevance_score spec_relevance_formula
  ring

/-- C5 counterexample: normalization maps the tag list with duplicated
entries to a tag list that still has duplicates (no deduplication in
standardize), and a bulk tag add stores the new tag Python verbatim,
neither lowercased nor trimmed. -/
theorem c5_counterexample :
    ¬ (HiNATAValidator.standardize (fun ts => ts) sample_dup_tag_record).tag.Nodup ∧
    (HiNATAWriteAPI.apply_bulk_operation [bulk_row] bulk_row ["Python"]
      ("bulk_tag")).2.map (fun r => r.tags) = [["python", "Python"]] := by
  constructor
  · decide
  · decide

/-- C5 amended: after normalization every surviving tag is the
strip-then-lowercase image of an input tag (lowercase and trimmed), but
duplicates are not removed; after a bulk tag add the updated row carries
exactly the deduplicated union of its previous tags and the new tags, with
no lowercasing or trimming applied to them. -/
theorem c5_amended_tag_normalization :
    (∀ (iso : String → String) (h : HiNATAData) (t : String),
      t ∈ (HiNATAValidator.standardize iso h).tag →
      ∃ s ∈ h.tag, t = py_lower (py_strip s)) ∧
    (∀ (warm : List HinataRow) (hinata : HinataRow) (new_tags : List String)
      (r : HinataRow),
      r ∈ (HiNATAWriteAPI.apply_bulk_operation warm hinata new_tags ("bulk_tag")).2 →
      r.id = hinata.id →
      r.tags.Nodup ∧ ∀ t, t ∈ r.tags ↔ t ∈ hinata.tags ∨ t ∈ new_tags) := by
  constructor
  · intro iso h t ht
    simp only [HiNATAValidator.standardize, List.mem_map, List.mem_filter] at ht
    obtain ⟨s, ⟨hs, _⟩, rfl⟩ := ht
    exact ⟨s, hs, rfl⟩
  · intro warm hinata new_tags r hr hid
    have hr2 : r ∈ warm.map (fun r0 =>
        if r0.id = hinata.id then { r0 with tags := (hinata.tags ++ new_tags).dedup }
        else r0) := by
      simpa [HiNATAWriteAPI.apply_bulk_operation] using hr
    rw [List.mem_map] at hr2
    obtain ⟨r0, hr0, heq⟩ := hr2
    by_cases h0 : r0.id = hinata.id
    · rw [if_pos h0] at heq
      subst heq
      refine ⟨List.nodup_dedup _, fun t => ?_⟩
      simp [List.mem_dedup]
    · rw [if_neg h0] at heq
      subst heq
      exact absurd hid h0

/-- Witness for C5 amended, applied to the duplicated-tag record. -/
theorem c5_witness :
    ∃ s ∈ sample_dup_tag_record.tag,
      py_lower (py_strip ("ml")) = py_lower (py_strip s) :=
  c5_amended_tag_normalization.1 (fun ts => ts) sample_dup_tag_record
    (py_lower (py_strip ("ml"))) (by decide)

/-- C7 counterexample: when the enrichment stage fails, the record is not
stored (the store stays empty) and the batch result for it is FAILED with
the error message; the failure is not recorded on the record itself, and
the record does not remain ingestible. -/
theorem c7_counterexample :
    HiNATAProcessor.process_hinata_batch failing_enhance_env (fun _ => true)
      (fun ts => ts) [sample_valid_record] [] =
    ([{ status := .failed, hinata_id := "h2",
        error_message := some ("enhancement stage failed") }], []) := by
  decide

/-- C7 amended: if an enrichment stage fails on a (valid) record, that
record is rejected: its result is FAILED carrying the error message, it is
not stored, and the batch continues with the remaining records exactly as
if the failed record had been absent. -/
theorem c7_amended_enrichment_failure_rejects_record
    (env : HiNATAProcessor.EnhanceEnv) (parse_ok : String → Bool)
    (iso : String → String) (h : HiNATAData) (rest : List HiNATAData)
    (store : HiNATAProcessor.ProcStore) (e : String)
    (hvalid : (HiNATAValidator.validate parse_ok h).1 = true)
    (hfail : env.enhance (HiNATAValidator.standardize iso h) = .error e) :
    HiNATAProcessor.process_hinata_batch env parse_ok iso (h :: rest) store =
      ({ status := .failed, hinata_id := h.id, error_message := some e } ::
        (HiNATAProcessor.process_hinata_batch env parse_ok iso rest store).1,
       (HiNATAProcessor.process_hinata_batch env parse_ok iso rest store).2) := by
  have hsingle : HiNATAProcessor.process_single_hinata env parse_ok iso h store =
      .error e := by
    unfold HiNATAProcessor.process_single_hinata
    simp [hvalid, hfail]
  simp [HiNATAProcessor.process_hinata_batch, hsingle]

/-- Helper: peeling one early-return check off the authorization chain. -/
theorem validate_step {c : Prop} [Decidable c] {m : String} {f : List String}
    {rest : Bool × String × List String}
    (h : (if c then (false, m, f) else rest).1 = true) : rest.1 = true := by
  by_cases hc : c
  · rw [if_pos hc] at h
    exact absurd h (by simp)
  · rwa [if_neg hc] at h

/-- Helper: the hard delete of the fixtures is assessed critical (base
risk 0.8 for delete plus 0.3 for the hard-delete flag reaches 1.1). -/
theorem assess_hard_delete_admin_critical :
    (WritePermissionManager.assess_operation_risk ("delete") hard_delete_data
      admin_profile 12).1 = .critical := by
  simp [WritePermissionManager.assess_operation_risk,
    WritePermissionManager.operation_base_risk, hard_delete_data, admin_profile] <;>
  norm_num

/-- Helper: the same hard delete is authorized for the admin fixture even
though the session carries no 2FA verification, because the profile does
not set require_2fa. -/
theorem validate_hard_delete_admin_allowed :
    (WritePermissionManager.validate_write_permission admin_profile ("delete")
      hard_delete_data false 1 12 0).1 = true := by
  simp [WritePermissionManager.validate_write_permission,
    WritePermissionManager.assess_operation_risk,
    WritePermissionManager.operation_base_risk, hard_delete_data, admin_profile] <;>
  norm_num

/-- C3 counterexample: a hard delete assessed critical is authorized for
an admin operator whose session has no 2FA verification (the profile does
not demand 2FA), refuting the claim that such an operator is rejected. -/
theorem c3_counterexample :
    (WritePermissionManager.assess_operation_risk ("delete") hard_delete_data
      admin_profile 12).1 = .critical ∧
    (WritePermissionManager.validate_write_permission admin_profile ("delete")
      hard_delete_data false 1 12 0).1 = true ∧
    admin_profile.require_2fa = false :=
  ⟨assess_hard_delete_admin_critical, validate_hard_delete_admin_allowed, rfl⟩

/-- C3 amended: for a hard delete assessed critical, authorization implies
the operator level is admin, and a valid session 2FA is additionally
required exactly when the profile sets require_2fa: an admin without
session 2FA is rejected only for profiles demanding 2FA. -/
theorem c3_amended_critical_hard_delete
    (p : WritePermissionManager.UserPermissionProfile)
    (d : WritePermissionManager.OperationData) (twofa : Bool) (now : Int)
    (hour daily : Nat)
    (hsoft : d.soft_delete = false)
    (hcrit : (WritePermissionManager.assess_operation_risk ("delete") d p hour).1 =
      .critical)
    (hallow : (WritePermissionManager.validate_write_permission p ("delete") d twofa
      now hour daily).1 = true) :
    p.permission_level = .admin ∧ (p.require_2fa = true → twofa = true) := by
  unfold WritePermissionManager.validate_write_permission at hallow
  replace hallow := validate_step (validate_step (validate_step (validate_step
    (validate_step (validate_step (validate_step (validate_step hallow)))))))
  set A := WritePermissionManager.assess_operation_risk ("delete") d p hour with hA
  simp only [] at hallow
  by_cases h9 : A.1 = WritePermissionManager.OperationRisk.critical ∧
      p.permission_level ≠ WritePermissionManager.PermissionLevel.admin
  · rw [if_pos h9] at hallow
    exact absurd hallow (by simp)
  · rw [if_neg h9] at hallow
    have hadmin : p.permission_level = WritePermissionManager.PermissionLevel.admin := by
      by_contra hne
      exact h9 ⟨hcrit, hne⟩
    refine ⟨hadmin, fun hreq => ?_⟩
    by_contra htw
    by_cases h10 : A.1 = WritePermissionManager.OperationRisk.high ∧
        ¬ (p.permission_level = WritePermissionManager.PermissionLevel.write_full ∨
           p.permission_level = WritePermissionManager.PermissionLevel.admin)
    · rw [if_pos h10] at hallow
      exact absurd hallow (by simp)
    · rw [if_neg h10] at hallow
      by_cases h11 : p.require_2fa = true ∧
          (A.1 = WritePermissionManager.OperationRisk.high ∨
           A.1 = WritePermissionManager.OperationRisk.critical) ∧ ¬ (twofa = true)
      · rw [if_pos h11] at hallow
        exact absurd hallow (by simp)
      · exact h11 ⟨hreq, Or.inr hcrit, htw⟩

/-- Witness for C3 amended at the admin fixture. -/
theorem c3_witness :
    admin_profile.permission_level = .admin ∧
    (admin_profile.require_2fa = true → false = true) :=
  c3_amended_critical_hard_delete admin_profile hard_delete_data false 1 12 0
    (by decide) assess_hard_delete_admin_critical validate_hard_delete_admin_allowed

/-- Helper: a soft delete rewrites exactly the row with the deleted id,
as seen through the by-id lookup. -/
theorem warm_get_soft_delete (warm : List HinataRow) (hinata_id now : String) :
    StorageEngine.warm_get_hinata (HiNATAWriteAPI.soft_delete_hinata warm hinata_id now)
      hinata_id =
    (StorageEngine.warm_get_hinata warm hinata_id).map
      (fun r => { r with is_deleted := true, deleted_at := some now }) := by
  unfold StorageEngine.warm_get_hinata HiNATAWriteAPI.soft_delete_hinata
  induction warm with
  | nil => rfl
  | cons r0 rest ih =>
    rw [List.map_cons]
    by_cases h : r0.id = hinata_id
    · rw [if_pos h]
      rw [List.find?_cons_of_pos _ (by simpa using h),
          List.find?_cons_of_pos _ (by simpa using h)]
      rfl
    · rw [if_neg h]
      rw [List.find?_cons_of_neg _ (by simpa using h),
          List.find?_cons_of_neg _ (by simpa using h)]
      exact ih

/-- Helper: every row of the soft-deleted table carrying the deleted id is
marked deleted. -/
theorem soft_delete_marks (warm : List HinataRow) (hinata_id now : String) :
    ∀ row ∈ HiNATAWriteAPI.soft_delete_hinata warm hinata_id now,
      row.id = hinata_id → row.is_deleted = true := by
  intro row hrow hid
  unfold HiNATAWriteAPI.soft_delete_hinata at hrow
  rw [List.mem_map] at hrow
  obtain ⟨r0, hr0, heq⟩ := hrow
  by_cases h : r0.id = hinata_id
  · rw [if_pos h] at heq
    rw [← heq]
  · rw [if_neg h] at heq
    rw [← heq] at hid
    exact absurd hid h

/-- C2 counterexample: after a successful soft delete of the stored record
h9, the record is still returned by Get (marked deleted rather than
NotFound), still appears in the multi-strategy search results for its
user, while the stored row is indeed retained with its deletion mark. -/
theorem c2_counterexample :
    StorageEngine.retrieve_hinata c2_state 0 3600 ("h9") ("u1") = some c2_deleted_row ∧
    (StorageEngine.multi_strategy_search c2_state 0 3600 (fun _ => 0) c2_query).map
      (fun r => r.hinata_id) = ["h9"] ∧
    c2_deleted_warm = [c2_deleted_row] := by
  refine ⟨rfl, ?_, rfl⟩
  norm_num [StorageEngine.multi_strategy_search, StorageEngine.rank_and_filter_results,
    StorageEngine.query_by_criteria, StorageEngine.calculate_relevance_score,
    StorageEngine.calculate_recency_score, StorageEngine.determine_storage_tier,
    c2_state, c2_query, c2_deleted_warm, c2_deleted_row, c2_base_row,
    HiNATAWriteAPI.soft_delete_hinata, StorageEngine.retrieve_hinata,
    StorageEngine.cache_lookup, StorageEngine.hot_get_hinata,
    StorageEngine.warm_get_hinata, List.insertionSort, List.filter, List.filterMap,
    decide_eq_true_eq]

/-- C2 amended: a soft delete retains the stored row, marking it deleted;
the record then stays visible to Get by id (the retrieval path never
consults the deletion mark), and only the bulk-write target query excludes
it. -/
theorem c2_amended_soft_delete_retained_and_visible
    (warm : List HinataRow) (r : HinataRow) (hinata_id now : String)
    (hfind : StorageEngine.warm_get_hinata warm hinata_id = some r) :
    StorageEngine.warm_get_hinata (HiNATAWriteAPI.soft_delete_hinata warm hinata_id now)
      hinata_id = some { r with is_deleted := true, deleted_at := some now } ∧
    (∀ (s : StorageEngine.StorageState) (now2 cache_ttl : ℚ) (user_id : String),
      s.cache = [] → s.hot_full = [] →
      s.warm = HiNATAWriteAPI.soft_delete_hinata warm hinata_id now →
      StorageEngine.retrieve_hinata s now2 cache_ttl hinata_id user_id =
        some { r with is_deleted := true, deleted_at := some now }) ∧
    (∀ (f : HiNATAWriteAPI.TargetFilter) (user_id : String),
      ∀ row ∈ HiNATAWriteAPI.find_hinatas_by_filter
        (HiNATAWriteAPI.soft_delete_hinata warm hinata_id now) f user_id,
      row.id ≠ hinata_id) := by
  have h1 : StorageEngine.warm_get_hinata
      (HiNATAWriteAPI.soft_delete_hinata warm hinata_id now) hinata_id =
      some { r with is_deleted := true, deleted_at := some now } := by
    rw [warm_get_soft_delete, hfind]
    rfl
  refine ⟨h1, ?_, ?_⟩
  · intro s now2 cache_ttl user_id hc hh hw
    unfold StorageEngine.retrieve_hinata StorageEngine.cache_lookup
    rw [hc, hh, hw, h1]
    simp [StorageEngine.hot_get_hinata]
  · intro f user_id row hrow hid
    have hmem := (List.mem_filter.mp hrow).1
    have hpred := (List.mem_filter.mp hrow).2
    simp only [Bool.and_eq_true, decide_eq_true_eq] at hpred
    have hdel := soft_delete_marks warm hinata_id now row hmem hid
    rw [hpred.1.1.1.1.2] at hdel
    exact Bool.false_ne_true hdel

/-- Witness for C2 amended at the soft-deleted fixture row. -/
theorem c2_witness :
    StorageEngine.warm_get_hinata
      (HiNATAWriteAPI.soft_delete_hinata [c2_base_row] ("h9")
        ("2024-02-02T00:00:00+00:00")) ("h9") =
      some { c2_base_row with
             is_deleted := true
             deleted_at := some ("2024-02-02T00:00:00+00:00") } :=
  (c2_amended_soft_delete_retained_and_visible [c2_base_row] c2_base_row ("h9")
    ("2024-02-02T00:00:00+00:00") rfl).1

/-- Helper: a bulk operation over the hard caps fails its safety
validation. -/
theorem safety_fails (warm : List HinataRow) (b : HiNATAWriteAPI.BulkOperationModel)
    (user_id : String)
    (hcap : b.batch_size > 1000 ∨
      HiNATAWriteAPI.estimate_affected_count warm b.target_filter user_id > 10000) :
    (HiNATAWriteAPI.validate_bulk_operation_safety warm b user_id).1 = false := by
  unfold HiNATAWriteAPI.validate_bulk_operation_safety
  simp only []
  rcases hcap with h | h
  · rw [if_pos h]
    simp
  · rw [if_pos h]
    simp

/-- Helper: a failed safety validation aborts the bulk handler before any
target is selected or mutated. -/
theorem handle_bulk_error (warm : List HinataRow) (b : HiNATAWriteAPI.BulkOperationModel)
    (user_id : String)
    (hsafe : (HiNATAWriteAPI.validate_bulk_operation_safety warm b user_id).1 = false) :
    HiNATAWriteAPI.handle_bulk_operation warm (some b) user_id =
      .error ("Bulk operation safety check failed") := by
  simp [HiNATAWriteAPI.handle_bulk_operation, hsafe]

/-- C4 counterexample: a bulk tag request with batch size 1001 is rejected
with an error and no stored row changes, but the automatic backup snapshot
(auto_backup defaults to true) has already been created, refuting the
claim that no backup snapshot is created. -/
theorem c4_counterexample :
    (HiNATAWriteAPI.process_write_request true c4_request ("op1") ("T1") c4_state).1.status =
      "error" ∧
    (HiNATAWriteAPI.process_write_request true c4_request ("op1") ("T1") c4_state).2.warm =
      c4_state.warm ∧
    (HiNATAWriteAPI.process_write_request true c4_request ("op1") ("T1") c4_state).2.backups =
      [("backup:u1:op1", [c4_row])] := by
  refine ⟨?_, ?_, ?_⟩ <;> decide

/-- C4 amended: a bulk operation whose batch size exceeds the hard cap of
1000 or whose estimated match count exceeds the hard ceiling of 10000 is
rejected before any mutation — no stored record changes — but the backup
snapshot is still created first whenever the request asks for automatic
backup (the default), because the backup step precedes the safety
validation. -/
theorem c4_amended_oversized_bulk_rejected_after_backup
    (st : HiNATAWriteAPI.WriteState) (req : HiNATAWriteAPI.HiNATAWriteRequestModel)
    (operation_id now : String) (b : HiNATAWriteAPI.BulkOperationModel)
    (hop : req.operation_type = "batch_update" ∨ req.operation_type = "bulk_tag" ∨
      req.operation_type = "bulk_retag")
    (hb : req.bulk_operation = some b)
    (hcap : b.batch_size > 1000 ∨
      HiNATAWriteAPI.estimate_affected_count st.warm b.target_filter req.user_id > 10000) :
    (HiNATAWriteAPI.process_write_request true req operation_id now st).1.status = "error" ∧
    (HiNATAWriteAPI.process_write_request true req operation_id now st).2.warm = st.warm ∧
    (HiNATAWriteAPI.process_write_request true req operation_id now st).2.backups =
      (if req.auto_backup then
        HiNATAWriteAPI.create_backup st req.user_id operation_id
      else st).backups := by
  set st1 := if req.auto_backup then
      HiNATAWriteAPI.create_backup st req.user_id operation_id
    else st with hst1
  have hw : st1.warm = st.warm := by
    rw [hst1]
    by_cases hab : req.auto_backup
    · rw [if_pos hab]
      rfl
    · rw [if_neg hab]
  have hsafe : (HiNATAWriteAPI.validate_bulk_operation_safety st1.warm b req.user_id).1 =
      false := by
    apply safety_fails
    rw [hw]
    exact hcap
  have hbulk : HiNATAWriteAPI.handle_bulk_operation st1.warm (some b) req.user_id =
      .error ("Bulk operation safety check failed") := handle_bulk_error _ _ _ hsafe
  rcases hop with h | h | h <;>
    simp only [HiNATAWriteAPI.process_write_request, h, hb, ← hst1, hbulk] <;>
    simp [HiNATAWriteAPI.known_operation_types, hw]

/-- Witness for C4 amended at the oversized bulk fixture. -/
theorem c4_witness :
    (HiNATAWriteAPI.process_write_request true c4_request ("op1") ("T1") c4_state).1.status =
      "error" ∧
    (HiNATAWriteAPI.process_write_request true c4_request ("op1") ("T1") c4_state).2.warm =
      c4_state.warm ∧
    (HiNATAWriteAPI.process_write_request true c4_request ("op1") ("T1") c4_state).2.backups =
      (if c4_request.auto_backup then
        HiNATAWriteAPI.create_backup c4_state c4_request.user_id ("op1")
      else c4_state).backups :=
  c4_amended_oversized_bulk_rejected_after_backup c4_state c4_request ("op1") ("T1")
    c4_bulk (Or.inr (Or.inl rfl)) rfl (Or.inl (by decide))

/-- C1 counterexample: a record owned by alice and resident in the hot
tier is returned by Get for the different user bob, refuting per-user
scoping of retrieval. -/
theorem c1_counterexample :
    StorageEngine.retrieve_hinata hot_only_state 0 3600 ("h1") ("bob") =
      some alice_row ∧
    alice_row.user_id ≠ "bob" := by
  constructor
  · simp [StorageEngine.retrieve_hinata, StorageEngine.cache_lookup,
      StorageEngine.hot_get_hinata, hot_only_state]
  · decide

/-- C1 amended: Get is user-scoped only through the cache key and the
cold-tier probe.  A record found in the hot tier is returned to any
requesting user, and NotFound results exactly when the hot and warm
probes (which ignore the user) miss and the cold tier holds nothing under
the requesting user. -/
theorem c1_amended_get_scope (s : StorageEngine.StorageState) (now cache_ttl : ℚ)
    (hinata_id user_id : String) (hcache : s.cache = []) :
    (∀ r, StorageEngine.hot_get_hinata s.hot_full hinata_id = some r →
      StorageEngine.retrieve_hinata s now cache_ttl hinata_id user_id = some r) ∧
    (StorageEngine.hot_get_hinata s.hot_full hinata_id = none →
      StorageEngine.warm_get_hinata s.warm hinata_id = none →
      StorageEngine.cold_get_hinata s.cold hinata_id user_id = none →
      StorageEngine.retrieve_hinata s now cache_ttl hinata_id user_id = none) := by
  constructor
  · intro r hr
    unfold StorageEngine.retrieve_hinata StorageEngine.cache_lookup
    rw [hcache]
    simp [hr]
  · intro h1 h2 h3
    unfold StorageEngine.retrieve_hinata StorageEngine.cache_lookup
    rw [hcache]
    simp [h1, h2, h3]

/-- Witness for C1 amended: the hot-tier record of alice is returned to
bob. -/
theorem c1_witness :
    StorageEngine.retrieve_hinata hot_only_state 0 3600 ("h1") ("bob") =
      some alice_row :=
  (c1_amended_get_scope hot_only_state 0 3600 ("h1") ("bob") rfl).1 alice_row rfl

/-- Helper: the cosine similarity of the one-dimensional unit vector with
itself is 1. -/
theorem cosine_one : PSPEngine.calculate_similarity [1] [1] = 1 := by
  unfold PSPEngine.calculate_similarity
  rw [if_neg (by simp)]
  norm_num [PSPEngine.dot_product, PSPEngine.norm_sq, Real.sqrt_one]

/-- Helper: one search step never lowers the running best similarity. -/
theorem best_value_le_step (intent : PSPEngine.UserIntent) (θ : ℝ)
    (acc : Option (PSPEngine.PSPComponent × ℝ)) (c : PSPEngine.PSPComponent) :
    PSPEngine.best_value acc ≤
      PSPEngine.best_value (PSPEngine.find_best_step intent θ acc c) := by
  simp only [PSPEngine.find_best_step]
  by_cases h1 : c.embedding = []
  · rw [if_pos h1]
  · rw [if_neg h1]
    by_cases h2 : PSPEngine.calculate_similarity intent.embedding c.embedding >
        PSPEngine.best_value acc ∧
        PSPEngine.calculate_similarity intent.embedding c.embedding > θ
    · rw [if_pos h2]
      exact le_of_lt h2.1
    · rw [if_neg h2]

/-- Helper: the whole search loop never lowers the running best
similarity. -/
theorem best_value_le_foldl (intent : PSPEngine.UserIntent) (θ : ℝ)
    (l : List PSPEngine.PSPComponent) (acc : Option (PSPEngine.PSPComponent × ℝ)) :
    PSPEngine.best_value acc ≤
      PSPEngine.best_value (l.foldl (PSPEngine.find_best_step intent θ) acc) := by
  induction l generalizing acc with
  | nil => exact le_refl _
  | cons x xs ih =>
    rw [List.foldl_cons]
    exact le_trans (best_value_le_step intent θ acc x) (ih _)

/-- Helper: every embedded component of the searched layer has similarity
at most the threshold or at most the final best value. -/
theorem sim_le_foldl (intent : PSPEngine.UserIntent) (θ : ℝ)
    (l : List PSPEngine.PSPComponent) :
    ∀ (acc : Option (PSPEngine.PSPComponent × ℝ)), ∀ c ∈ l, c.embedding ≠ [] →
    PSPEngine.calculate_similarity intent.embedding c.embedding ≤ θ ∨
    PSPEngine.calculate_similarity intent.embedding c.embedding ≤
      PSPEngine.best_value (l.foldl (PSPEngine.find_best_step intent θ) acc) := by
  induction l with
  | nil =>
    intro acc c hc
    exact absurd hc (List.not_mem_nil c)
  | cons x xs ih =>
    intro acc c hc hemb
    rw [List.foldl_cons]
    rcases List.mem_cons.mp hc with rfl | hc2
    · by_cases hcond : PSPEngine.calculate_similarity intent.embedding c.embedding >
          PSPEngine.best_value acc ∧
          PSPEngine.calculate_similarity intent.embedding c.embedding > θ
      · right
        have hstep : PSPEngine.find_best_step intent θ acc c =
            some (c, PSPEngine.calculate_similarity intent.embedding c.embedding) := by
          simp only [PSPEngine.find_best_step]
          rw [if_neg hemb, if_pos hcond]
        rw [hstep]
        have hrest := best_value_le_foldl intent θ xs
          (some (c, PSPEngine.calculate_similarity intent.embedding c.embedding))
        simpa [PSPEngine.best_value] using hrest
      · by_cases hθ : PSPEngine.calculate_similarity intent.embedding c.embedding ≤ θ
        · exact Or.inl hθ
        · right
          have hA : ¬ (PSPEngine.calculate_similarity intent.embedding c.embedding >
              PSPEngine.best_value acc) :=
            fun hA => hcond ⟨hA, lt_of_not_le hθ⟩
          have hstep : PSPEngine.find_best_step intent θ acc c = acc := by
            simp only [PSPEngine.find_best_step]
            rw [if_neg hemb, if_neg hcond]
          rw [hstep]
          exact le_trans (not_lt.mp hA) (best_value_le_foldl intent θ xs acc)
    · exact ih (PSPEngine.find_best_step intent θ acc x) c hc2 hemb

/-- Helper: a search result is either the initial accumulator or a member
of the searched layer, carried with its own similarity, above the
threshold. -/
theorem foldl_best_some (intent : PSPEngine.UserIntent) (θ : ℝ)
    (l : List PSPEngine.PSPComponent) :
    ∀ (acc : Option (PSPEngine.PSPComponent × ℝ)) (c : PSPEngine.PSPComponent) (s : ℝ),
    l.foldl (PSPEngine.find_best_step intent θ) acc = some (c, s) →
    acc = some (c, s) ∨
    (c ∈ l ∧ c.embedding ≠ [] ∧
      s = PSPEngine.calculate_similarity intent.embedding c.embedding ∧ s > θ) := by
  induction l with
  | nil =>
    intro acc c s h
    exact Or.inl h
  | cons x xs ih =>
    intro acc c s h
    rw [List.foldl_cons] at h
    rcases ih _ c s h with hacc | hxs
    · simp only [PSPEngine.find_best_step] at hacc
      by_cases h1 : x.embedding = []
      · rw [if_pos h1] at hacc
        exact Or.inl hacc
      · rw [if_neg h1] at hacc
        by_cases h2 : PSPEngine.calculate_similarity intent.embedding x.embedding >
            PSPEngine.best_value acc ∧
            PSPEngine.calculate_similarity intent.embedding x.embedding > θ
        · rw [if_pos h2] at hacc
          injection hacc with hpair
          injection hpair with hx hs
          subst hx
          exact Or.inr ⟨List.mem_cons_self x xs, h1, hs.symm, hs ▸ h2.2⟩
        · rw [if_neg h2] at hacc
          exact Or.inl hacc
    · exact Or.inr ⟨List.mem_cons_of_mem _ hxs.1, hxs.2.1, hxs.2.2.1, hxs.2.2.2⟩

/-- Witness for C7 amended at the failing environment and a concrete valid
record. -/
theorem c7_witness :
    HiNATAProcessor.process_hinata_batch failing_enhance_env (fun _ => true)
      (fun ts => ts) (sample_valid_record :: []) [] =
      ({ status := .failed, hinata_id := sample_valid_record.id,
         error_message := some ("enhancement stage failed") } ::
        (HiNATAProcessor.process_hinata_batch failing_enhance_env (fun _ => true)
          (fun ts => ts) [] []).1,
       (HiNATAProcessor.process_hinata_batch failing_enhance_env (fun _ => true)
          (fun ts => ts) [] []).2) :=
  c7_amended_enrichment_failure_rejects_record failing_enhance_env (fun _ => true)
    (fun ts => ts) sample_valid_record [] [] ("enhancement stage failed")
    (by decide) rfl

/-- Helper: rewriting an existing key in place leaves every other key
unchanged. -/
theorem dget_map_set_ne (d : HiNATAWriteAPI.Dict) (k k0 : String)
    (v : HiNATAWriteAPI.DVal) (h : k ≠ k0) :
    HiNATAWriteAPI.dget (d.map (fun p => if p.1 = k0 then (k0, v) else p)) k =
      HiNATAWriteAPI.dget d k := by
  unfold HiNATAWriteAPI.dget
  induction d with
  | nil => rfl
  | cons p ps ih =>
    rw [List.map_cons]
    by_cases hp : p.1 = k0
    · rw [if_pos hp]
      rw [List.find?_cons_of_neg _ (by simp; exact fun hh => h hh.symm),
          List.find?_cons_of_neg _ (by simp [hp]; exact fun hh => h hh.symm)]
      exact ih
    · rw [if_neg hp]
      by_cases hpk : p.1 = k
      · rw [List.find?_cons_of_pos _ (by simpa using hpk),
            List.find?_cons_of_pos _ (by simpa using hpk)]
      · rw [List.find?_cons_of_neg _ (by simpa using hpk),
            List.find?_cons_of_neg _ (by simpa using hpk)]
        exact ih

/-- Helper: appending a fresh key leaves every other key unchanged. -/
theorem dget_append_ne (d : HiNATAWriteAPI.Dict) (k k0 : String)
    (v : HiNATAWriteAPI.DVal) (h : k ≠ k0) :
    HiNATAWriteAPI.dget (d ++ [(k0, v)]) k = HiNATAWriteAPI.dget d k := by
  unfold HiNATAWriteAPI.dget
  induction d with
  | nil =>
    rw [List.nil_append]
    rw [List.find?_cons_of_neg _ (by simp; exact fun hh => h hh.symm)]
  | cons p ps ih =>
    rw [List.cons_append]
    by_cases hpk : p.1 = k
    · rw [List.find?_cons_of_pos _ (by simpa using hpk),
          List.find?_cons_of_pos _ (by simpa using hpk)]
    · rw [List.find?_cons_of_neg _ (by simpa using hpk),
          List.find?_cons_of_neg _ (by simpa using hpk)]
      exact ih

/-- Helper: a dict write leaves every other key unchanged. -/
theorem dget_dset_ne (d : HiNATAWriteAPI.Dict) (k k0 : String)
    (v : HiNATAWriteAPI.DVal) (h : k ≠ k0) :
    HiNATAWriteAPI.dget (HiNATAWriteAPI.dset d k0 v) k = HiNATAWriteAPI.dget d k := by
  unfold HiNATAWriteAPI.dset
  by_cases hex : (d.find? (fun p => p.1 = k0)).isSome
  · rw [if_pos hex]
    exact dget_map_set_ne d k k0 v h
  · rw [if_neg hex]
    exact dget_append_ne d k k0 v h

/-- Helper: rewriting an existing key in place stores the new value. -/
theorem dget_map_set_self (d : HiNATAWriteAPI.Dict) (k : String)
    (v : HiNATAWriteAPI.DVal) (hex : (d.find? (fun p => p.1 = k)).isSome) :
    HiNATAWriteAPI.dget (d.map (fun p => if p.1 = k then (k, v) else p)) k = some v := by
  induction d with
  | nil => simp at hex
  | cons p ps ih =>
    rw [List.map_cons]
    by_cases hpk : p.1 = k
    · rw [if_pos hpk]
      unfold HiNATAWriteAPI.dget
      rw [List.find?_cons_of_pos _ (by simp)]
      rfl
    · rw [if_neg hpk]
      unfold HiNATAWriteAPI.dget
      rw [List.find?_cons_of_neg _ (by simpa using hpk)]
      have hex2 : (ps.find? (fun p => p.1 = k)).isSome := by
        rwa [List.find?_cons_of_neg _ (by simpa using hpk)] at hex
      exact ih hex2

/-- Helper: appending a fresh key stores the new value. -/
theorem dget_append_self (d : HiNATAWriteAPI.Dict) (k : String)
    (v : HiNATAWriteAPI.DVal) (hnone : d.find? (fun p => p.1 = k) = none) :
    HiNATAWriteAPI.dget (d ++ [(k, v)]) k = some v := by
  induction d with
  | nil =>
    unfold HiNATAWriteAPI.dget
    rw [List.nil_append, List.find?_cons_of_pos _ (by simp)]
    rfl
  | cons p ps ih =>
    by_cases hpk : p.1 = k
    · rw [List.find?_cons_of_pos _ (by simpa using hpk)] at hnone
      exact absurd hnone (by simp)
    · rw [List.find?_cons_of_neg _ (by simpa using hpk)] at hnone
      unfold HiNATAWriteAPI.dget
      rw [List.cons_append, List.find?_cons_of_neg _ (by simpa using hpk)]
      exact ih hnone

/-- Helper: a dict write stores the new value under its key. -/
theorem dget_dset_self (d : HiNATAWriteAPI.Dict) (k : String)
    (v : HiNATAWriteAPI.DVal) :
    HiNATAWriteAPI.dget (HiNATAWriteAPI.dset d k v) k = some v := by
  unfold HiNATAWriteAPI.dset
  by_cases hex : (d.find? (fun p => p.1 = k)).isSome
  · rw [if_pos hex]
    exact dget_map_set_self d k v hex
  · rw [if_neg hex]
    exact dget_append_self d k v (by rwa [Option.not_isSome_iff_eq_none] at hex)

/-- Helper: the patch loop only writes keys named in the patch, so every
other key keeps its previous value. -/
theorem dget_apply_updates_not_mem (updates : List (String × HiNATAWriteAPI.DVal)) :
    ∀ (d : HiNATAWriteAPI.Dict) (mt : Bool) (k : String),
    k ∉ updates.map Prod.fst →
    HiNATAWriteAPI.dget (HiNATAWriteAPI.apply_updates d updates mt) k =
      HiNATAWriteAPI.dget d k := by
  induction updates with
  | nil =>
    intro d mt k _
    rfl
  | cons fv rest ih =>
    intro d mt k hk
    rw [List.map_cons, List.mem_cons] at hk
    push_neg at hk
    obtain ⟨h1, h2⟩ := hk
    refine (ih _ mt k h2).trans ?_
    show HiNATAWriteAPI.dget
      (if fv.1 = "tag" ∧ mt then
        HiNATAWriteAPI.dset d ("tag") (.l
          (((match HiNATAWriteAPI.dget d ("tag") with
             | some (.l ts) => ts
             | _ => []) ++
            (match fv.2 with
             | .l ts => ts
             | .s t => [t]
             | _ => [])).dedup))
      else HiNATAWriteAPI.dset d fv.1 fv.2) k = HiNATAWriteAPI.dget d k
    by_cases hc : fv.1 = "tag" ∧ mt = true
    · rw [if_pos hc]
      exact dget_dset_ne d k ("tag") _ (hc.1 ▸ h1)
    · rw [if_neg hc]
      exact dget_dset_ne d k fv.1 fv.2 h1

/-- Helper: a by-id lookup commutes with an id-preserving row map. -/
theorem get_hinata_by_id_map_id (l : List HinataRow) (f : HinataRow → HinataRow)
    (hf : ∀ x, (f x).id = x.id) (x : String) :
    HiNATAWriteAPI.get_hinata_by_id (l.map f) x =
      (HiNATAWriteAPI.get_hinata_by_id l x).map f := by
  unfold HiNATAWriteAPI.get_hinata_by_id
  induction l with
  | nil => rfl
  | cons r rs ih =>
    rw [List.map_cons]
    by_cases hr : r.id = x
    · rw [List.find?_cons_of_pos _ (by simp [hf, hr]),
          List.find?_cons_of_pos _ (by simpa using hr)]
      rfl
    · rw [List.find?_cons_of_neg _ (by simp [hf, hr]),
          List.find?_cons_of_neg _ (by simpa using hr)]
      exact ih

/-- C10: a successful single-record update overwrites the stored timestamp
with the wall-clock time of the update (the now parameter), regardless of
whether the patch mentions the timestamp, so the original event time is
not preserved; every stored field not named in the patch, other than the
timestamp, is carried over unchanged (the columns the writer never touches
verbatim, the touched text columns from the fetched row), and rows with
other ids are untouched.  The patch is assumed not to rename the record
id. -/
theorem c10_update_overwrites_timestamp_preserves_rest
    (warm : List HinataRow) (user_id : String) (u : HiNATAWriteAPI.HiNATAUpdateModel)
    (now : String) (r : HinataRow) (warm2 : List HinataRow)
    (hid_not : ("id" : String) ∉ u.updates.map Prod.fst)
    (hfind : HiNATAWriteAPI.get_hinata_by_id warm u.id = some r)
    (hok : HiNATAWriteAPI.handle_update_operation warm user_id u now =
      .ok (true, warm2)) :
    ∃ r2, HiNATAWriteAPI.get_hinata_by_id warm2 u.id = some r2 ∧
      r2.timestamp = now ∧
      r2.id = r.id ∧ r2.user_id = r.user_id ∧ r2.source = r.source ∧
      r2.quality_score = r.quality_score ∧ r2.attention_weight = r.attention_weight ∧
      r2.psp_influence_weight = r.psp_influence_weight ∧
      r2.is_deleted = r.is_deleted ∧ r2.deleted_at = r.deleted_at ∧
      (("highlight" : String) ∉ u.updates.map Prod.fst → r2.highlight = r.highlight) ∧
      (("note" : String) ∉ u.updates.map Prod.fst → r2.note = r.note) ∧
      (("address" : String) ∉ u.updates.map Prod.fst → r2.address = r.address) ∧
      (∀ r0 ∈ warm, r0.id ≠ u.id → r0 ∈ warm2) := by
  have hr_id : r.id = u.id := by
    have := List.find?_some hfind
    exact of_decide_eq_true this
  unfold HiNATAWriteAPI.handle_update_operation at hok
  by_cases hown : HiNATAWriteAPI.validate_hinata_ownership warm user_id [u.id] = true
  · rw [if_neg (not_not_intro hown)] at hok
    rw [hfind] at hok
    split at hok
    next o hnone =>
      exact absurd hnone (by simp)
    next o existing heq2 =>
      injection heq2 with heq2
      subst heq2
      simp only [] at hok
      split at hok
      next w2 heq =>
        simp only [Except.ok.injEq, Prod.mk.injEq, true_and] at hok
        subst hok
        set d1 := HiNATAWriteAPI.apply_updates (HiNATAWriteAPI.row_to_dict r) u.updates
          u.merge_tags with hd1
        set d2 := HiNATAWriteAPI.dset d1 ("timestamp") (.s now) with hd2
        have hts : HiNATAWriteAPI.get_str d2 ("timestamp") = some now := by
          rw [hd2]
          unfold HiNATAWriteAPI.get_str
          rw [dget_dset_self]
        have hgid : HiNATAWriteAPI.get_str d2 ("id") = some r.id := by
          rw [hd2]
          unfold HiNATAWriteAPI.get_str
          rw [dget_dset_ne _ _ _ _ (by decide), hd1,
            dget_apply_updates_not_mem u.updates (HiNATAWriteAPI.row_to_dict r)
              u.merge_tags ("id") hid_not]
          rfl
        unfold HiNATAWriteAPI.update_hinata_in_storage at heq
        rw [hgid, hts] at heq
        rcases hhl : HiNATAWriteAPI.get_str d2 ("highlight") with _ | hl <;>
          rw [hhl] at heq
        · simp at heq
        rcases hnt : HiNATAWriteAPI.get_str d2 ("note") with _ | nt <;>
          rw [hnt] at heq
        · simp at heq
        rcases haddr : HiNATAWriteAPI.get_str d2 ("address") with _ | addr <;>
          rw [haddr] at heq
        · simp at heq
        rcases htg : HiNATAWriteAPI.get_str_list d2 ("tag") with _ | tg <;>
          rw [htg] at heq
        · simp at heq
        rcases hacc : HiNATAWriteAPI.get_str d2 ("access") with _ | acc <;>
          rw [hacc] at heq
        · simp at heq
        simp only [Option.some.injEq] at heq
        refine ⟨{ r with
          highlight := hl
          note := nt
          address := addr
          tags := tg
          access_level := acc
          timestamp := now }, ?_, rfl, rfl, rfl, rfl, rfl, rfl,
          rfl, rfl, rfl, ?_, ?_, ?_, ?_⟩
        · rw [← heq]
          rw [get_hinata_by_id_map_id warm _ (fun x => by
            by_cases hx : x.id = r.id
            · rw [if_pos hx]
            · rw [if_neg hx]) u.id]
          rw [hfind]
          rw [Option.map_some', if_pos rfl]
        · intro hnot
          have hval : HiNATAWriteAPI.get_str d2 ("highlight") = some r.highlight := by
            rw [hd2]
            unfold HiNATAWriteAPI.get_str
            rw [dget_dset_ne _ _ _ _ (by decide), hd1,
              dget_apply_updates_not_mem u.updates (HiNATAWriteAPI.row_to_dict r)
                u.merge_tags ("highlight") hnot]
            rfl
          rw [hhl] at hval
          exact Option.some.inj hval
        · intro hnot
          have hval : HiNATAWriteAPI.get_str d2 ("note") = some r.note := by
            rw [hd2]
            unfold HiNATAWriteAPI.get_str
            rw [dget_dset_ne _ _ _ _ (by decide), hd1,
              dget_apply_updates_not_mem u.updates (HiNATAWriteAPI.row_to_dict r)
                u.merge_tags ("note") hnot]
            rfl
          rw [hnt] at hval
          exact Option.some.inj hval
        · intro hnot
          have hval : HiNATAWriteAPI.get_str d2 ("address") = some r.address := by
            rw [hd2]
            unfold HiNATAWriteAPI.get_str
            rw [dget_dset_ne _ _ _ _ (by decide), hd1,
              dget_apply_updates_not_mem u.updates (HiNATAWriteAPI.row_to_dict r)
                u.merge_tags ("address") hnot]
            rfl
          rw [haddr] at hval
          exact Option.some.inj hval
        · intro r0 hr0 hr0id
          rw [← heq]
          refine List.mem_map.mpr ⟨r0, hr0, ?_⟩
          rw [if_neg (fun hx => hr0id (hx.trans hr_id))]
      next heq =>
        simp at hok
  · rw [if_pos hown] at hok
    exact absurd hok (by simp)

/-- Witness for C10 at a concrete row and patch naming only tag and
access. -/
theorem c10_witness :
    ∃ r2, HiNATAWriteAPI.get_hinata_by_id c10_expected_warm ("h1") = some r2 ∧
      r2.timestamp = "T2" ∧
      r2.id = u1_row.id ∧ r2.user_id = u1_row.user_id ∧ r2.source = u1_row.source ∧
      r2.quality_score = u1_row.quality_score ∧
      r2.attention_weight = u1_row.attention_weight ∧
      r2.psp_influence_weight = u1_row.psp_influence_weight ∧
      r2.is_deleted = u1_row.is_deleted ∧ r2.deleted_at = u1_row.deleted_at ∧
      (("highlight" : String) ∉ c10_update.updates.map Prod.fst →
        r2.highlight = u1_row.highlight) ∧
      (("note" : String) ∉ c10_update.updates.map Prod.fst → r2.note = u1_row.note) ∧
      (("address" : String) ∉ c10_update.updates.map Prod.fst →
        r2.address = u1_row.address) ∧
      (∀ r0 ∈ [u1_row], r0.id ≠ ("h1" : String) → r0 ∈ c10_expected_warm) :=
  c10_update_overwrites_timestamp_preserves_rest [u1_row] ("u1") c10_update ("T2")
    u1_row c10_expected_warm (by decide) (by decide) (by rfl)

/-- Helper: evaluation of the matcher on the fixture: the core_interest
intent selects the personal_value component of the core memory layer with
similarity 1. -/
theorem c6_match_eval :
    PSPEngine.find_best_component_match ci_intent c6_psp 0.7 = some (pv_component, 1) := by
  have hsim : PSPEngine.calculate_similarity ci_intent.embedding
      pv_component.embedding = 1 := cosine_one
  unfold PSPEngine.find_best_component_match PSPEngine.get_target_memory
  rw [if_neg (show ¬ ci_intent.embedding = [] by simp [ci_intent])]
  rw [if_pos (show ci_intent.intent_type = PSPEngine.PSPComponentType.core_interest ∨
    ci_intent.intent_type = PSPEngine.PSPComponentType.personal_value from Or.inl rfl)]
  show [pv_component].foldl (PSPEngine.find_best_step ci_intent 0.7) none =
    some (pv_component, 1)
  rw [List.foldl_cons, List.foldl_nil]
  simp only [PSPEngine.find_best_step]
  rw [if_neg (show ¬ pv_component.embedding = [] by simp [pv_component])]
  rw [hsim]
  rw [if_pos (by norm_num [PSPEngine.best_value] :
    (1 : ℝ) > PSPEngine.best_value none ∧ (1 : ℝ) > 0.7)]

/-- C6 counterexample: a core_interest intent is matched against the core
memory layer, which also holds personal_value components; here the best
match is a personal_value component — a different kind than the intent —
selected with similarity 1, and the resulting action is strengthen. -/
theorem c6_counterexample :
    PSPEngine.find_best_component_match ci_intent c6_psp 0.7 = some (pv_component, 1) ∧
    pv_component.component_type ≠ ci_intent.intent_type ∧
    PSPEngine.determine_update_action 1 = .strengthen := by
  refine ⟨c6_match_eval, by decide, ?_⟩
  unfold PSPEngine.determine_update_action
  rw [if_pos (by norm_num : (1 : ℝ) > 0.9)]

/-- C6 amended: matching searches only the memory layer that groups the
kind of the intent (core: core_interest and personal_value; working:
current_goal and work_context; learning: learning_preference; context:
the rest), so the winning component may have a different kind than the
intent; the selected component carries its own cosine similarity, which
exceeds 0.7 and is maximal over the embedded components of the layer, and
the action is strengthen above 0.9, update above 0.8, and merge
otherwise. -/
theorem c6_amended_match_searches_memory_layer (intent : PSPEngine.UserIntent)
    (psp : PSPEngine.PSPContext) (c : PSPEngine.PSPComponent) (s : ℝ)
    (hmatch : PSPEngine.find_best_component_match intent psp 0.7 = some (c, s)) :
    c ∈ PSPEngine.get_target_memory intent.intent_type psp ∧
    s = PSPEngine.calculate_similarity intent.embedding c.embedding ∧
    s > 0.7 ∧
    (∀ c2 ∈ PSPEngine.get_target_memory intent.intent_type psp, c2.embedding ≠ [] →
      PSPEngine.calculate_similarity intent.embedding c2.embedding ≤ s) ∧
    PSPEngine.determine_update_action s =
      (if s > 0.9 then .strengthen else if s > 0.8 then .update else .merge) := by
  unfold PSPEngine.find_best_component_match at hmatch
  by_cases hemb : intent.embedding = []
  · rw [if_pos hemb] at hmatch
    exact absurd hmatch (by simp)
  · rw [if_neg hemb] at hmatch
    rcases foldl_best_some intent 0.7 (PSPEngine.get_target_memory intent.intent_type psp)
        none c s hmatch with h | h
    · exact absurd h (by simp)
    obtain ⟨hcmem, hcemb, hseq, hsθ⟩ := h
    refine ⟨hcmem, hseq, hsθ, ?_, ?_⟩
    · intro c2 hc2 hc2emb
      rcases sim_le_foldl intent 0.7 (PSPEngine.get_target_memory intent.intent_type psp)
          none c2 hc2 hc2emb with hle | hle
      · exact le_trans hle (le_of_lt hsθ)
      · rw [hmatch] at hle
        simpa [PSPEngine.best_value] using hle
    · unfold PSPEngine.determine_update_action
      by_cases h9 : s > 0.9
      · rw [if_pos h9, if_pos h9]
      · rw [if_neg h9, if_neg h9]
        by_cases h8 : s > 0.8
        · rw [if_pos h8, if_pos h8]
        · rw [if_neg h8, if_neg h8, if_pos hsθ]

/-- Witness for C6 amended at the fixture match. -/
theorem c6_witness :
    pv_component ∈ PSPEngine.get_target_memory ci_intent.intent_type c6_psp ∧
    (1 : ℝ) = PSPEngine.calculate_similarity ci_intent.embedding pv_component.embedding ∧
    (1 : ℝ) > 0.7 ∧
    (∀ c2 ∈ PSPEngine.get_target_memory ci_intent.intent_type c6_psp,
      c2.embedding ≠ [] →
      PSPEngine.calculate_similarity ci_intent.embedding c2.embedding ≤ 1) ∧
    PSPEngine.determine_update_action 1 =
      (if (1 : ℝ) > 0.9 then .strengthen else if (1 : ℝ) > 0.8 then .update
       else .merge) :=
  c6_amended_match_searches_memory_layer ci_intent c6_psp pv_component 1 c6_match_eval

end ByenatOS
